import Mathlib

/-!
Shallow embedding of the SailPoint IdentityNow "revoke access" action
(JavaScript) in Lean 4.

Two source variants exist in the repository:
* the bundled variant (utils + handler, `src/unnamed/part_001` = `dist/index.js`):
  template resolution, four-way authentication probing, `getBaseURL`,
  `revokeAccess`, and the `invoke` handler;
* the older variant (`src/unnamed/part_000`): `sailpointDomain`-based
  `revokeAccess` and a retrying `error` handler.

JavaScript values are modelled by the inductive `JsValue`; `Option JsValue`
distinguishes `undefined` (`none`) from `null` (`JsValue.null`).  The
nondeterministic runtime inputs (current time, random UUID, network
responses, and the host-dependent parts of date-string parsing) are
passed as explicit parameters, so everything is executable.
Modelling notes are attached to the individual definitions.
-/

set_option maxHeartbeats 1000000

namespace SailPointRevoke

/-- A JavaScript value (JSON-shaped).  `undefined` is represented by `none`
at use sites of type `Option JsValue`.  Numbers are modelled as integers;
none of the verified code paths depend on non-integer arithmetic. -/
inductive JsValue where
  | null
  | bool (b : Bool)
  | num (n : Int)
  | str (s : String)
  | arr (elems : List JsValue)
  | obj (entries : List (String × JsValue))
deriving Repr, Inhabited

/-- First-match association-list lookup, the model of JS property access on
a plain object (our object values never carry duplicate keys). -/
def lookupEntry (es : List (String × JsValue)) (k : String) : Option JsValue :=
  match es with
  | [] => none
  | (k', v) :: rest => if k' = k then some v else lookupEntry rest k

/-- JS property access `v[k]` / `v.k` for a non-numeric key: defined on
objects, `undefined` elsewhere.  (Exotic host properties such as
`String.prototype.length` are not modelled; no verified path reads them.) -/
def jsProp (v : JsValue) (k : String) : Option JsValue :=
  match v with
  | .obj es => lookupEntry es k
  | _ => none

/-- JS truthiness of a defined value. -/
def jsTruthy : JsValue → Bool
  | .null => false
  | .bool b => b
  | .num n => n != 0
  | .str s => s ≠ ""
  | .arr _ => true
  | .obj _ => true

/-- JS truthiness with `undefined` mapped to false. -/
def optTruthy : Option JsValue → Bool
  | none => false
  | some v => jsTruthy v

/-- Truthiness of an optional string-valued configuration entry
(`undefined` and the empty string are falsy). -/
def strTruthy : Option String → Bool
  | none => false
  | some s => s ≠ ""

/-- String-keyed configuration lookup (environment / secrets objects). -/
def lookupStr (es : List (String × String)) (k : String) : Option String :=
  match es with
  | [] => none
  | (k', v) :: rest => if k' = k then some v else lookupStr rest k

/-- `s.startsWith(pre)` over the character lists. -/
def startsWithStr (s pre : String) : Bool :=
  pre.data.isPrefixOf s.data

/-- Decimal digit test, as used by the bracket-index path normalisation. -/
def isDigit (c : Char) : Bool := '0' ≤ c ∧ c ≤ '9'

/-- Longest prefix satisfying `p` together with the remainder (a structural
helper standing in for the regex engine consuming a character class). -/
def spanP (p : Char → Bool) : List Char → List Char × List Char
  | [] => ([], [])
  | c :: cs =>
      if p c then
        let r := spanP p cs
        (c :: r.1, r.2)
      else ([], c :: cs)

theorem spanP_snd_length_le (p : Char → Bool) (l : List Char) :
    (spanP p l).2.length ≤ l.length := by
  induction l with
  | nil => simp [spanP]
  | cons c cs ih =>
      by_cases h : p c = true
      · simp [spanP, h]
        omega
      · simp [spanP, h]

theorem spanP_eq_of_all (p : Char → Bool) (l r : List Char) (c : Char)
    (hall : ∀ x ∈ l, p x = true) (hc : p c = false) :
    spanP p (l ++ c :: r) = (l, c :: r) := by
  induction l with
  | nil => simp [spanP, hc]
  | cons x xs ih =>
      have hx : p x = true := hall x (by simp)
      have ih' := ih (fun y hy => hall y (by simp [hy]))
      simp [spanP, hx, ih']

/-! ## Path normalisation (`get` in the template utilities)

The source normalises bracket notation to dot segments with three
left-to-right regex replacements before splitting on dots:
`[0]` to `.0`, then `['k']` to `.k`, then `["k"]` to `.k`. -/

/-- One pass of `path.replace(/\[(\d+)\]/g, ".$1")`: each `[digits]`
(non-empty digit run) becomes `.digits`; everything else is copied.  On a
failed match the scan advances one character, like the regex engine. -/
def replaceBracketNumF : Nat → List Char → List Char
  | 0, _ => []
  | _, [] => []
  | fuel + 1, c :: rest =>
      if c = '[' then
        let sp := spanP isDigit rest
        if sp.1 ≠ [] ∧ sp.2.head? = some ']' then
          '.' :: sp.1 ++ replaceBracketNumF fuel sp.2.tail
        else '[' :: replaceBracketNumF fuel rest
      else c :: replaceBracketNumF fuel rest

def replaceBracketNum (l : List Char) : List Char :=
  replaceBracketNumF (l.length + 1) l

/-- One pass of `path.replace(/\['([^q]+)'\]/g, ".$1")` for quote
character `q` (run once with a single quote, then with a double quote):
each `[q chars q]` with a non-empty run of non-`q` characters becomes
`.chars`. -/
def replaceBracketQF (q : Char) : Nat → List Char → List Char
  | 0, _ => []
  | _, [] => []
  | fuel + 1, c :: rest =>
      if c = '[' && rest.head? == some q then
        let sp := spanP (fun x => x != q) rest.tail
        if sp.1 ≠ [] ∧ sp.2.head? = some q ∧ sp.2.tail.head? = some ']' then
          '.' :: sp.1 ++ replaceBracketQF q fuel sp.2.tail.tail
        else '[' :: replaceBracketQF q fuel rest
      else c :: replaceBracketQF q fuel rest

def replaceBracketQ (q : Char) (l : List Char) : List Char :=
  replaceBracketQF q (l.length + 1) l

/-- Character-level split on `.` (the segments of `split('.')`). -/
def splitOnDot : List Char → List (List Char)
  | [] => [[]]
  | c :: rest =>
      let r := splitOnDot rest
      if c = '.' then [] :: r
      else (c :: r.headD []) :: r.tail

/-- `path.split('.').filter(Boolean)`: dot-split with empty segments
dropped. -/
def splitDots (s : String) : List String :=
  ((splitOnDot s.data).map String.mk).filter (fun seg => seg ≠ "")

/-- The segment list produced by the normalisation pipeline in `get`. -/
def pathSegments (path : String) : List String :=
  splitDots (String.mk (replaceBracketQ '"' (replaceBracketQ '\'' (replaceBracketNum path.data))))

/-- Canonical decimal numeral (no sign, no leading zero except `0`
itself) — the only strings that name JS array indices. -/
def decimalNat? (l : List Char) : Option Nat :=
  if l ≠ [] && l.all isDigit && (l = ['0'] || l.head? != some '0') then
    some (l.foldl (fun acc c => acc * 10 + (c.toNat - '0'.toNat)) 0)
  else none

/-- `current[segment]` for one traversal step: object key lookup, or array
index when the segment is a canonical decimal numeral.  (Array `length`
and string indexing are host behaviours outside the verified paths.) -/
def indexStep (v : JsValue) (seg : String) : Option JsValue :=
  match v with
  | .obj es => lookupEntry es seg
  | .arr xs =>
      match decimalNat? seg.data with
      | some i => xs.get? i
      | none => none
  | _ => none

/-- The traversal loop in `get`: `if (current == null) return undefined;
current = current[segment]`, then return `current`. -/
def getSegs : Option JsValue → List String → Option JsValue
  | cur, [] => cur
  | cur, seg :: rest =>
      match cur with
      | none => none
      | some .null => none
      | some v => getSegs (indexStep v seg) rest

/-- `get(obj, path)` from the template utilities: `undefined` for an empty
path or a `null` root, otherwise segment-wise traversal. -/
def get (obj : JsValue) (path : String) : Option JsValue :=
  if path = "" then none
  else getSegs (some obj) (pathSegments path)

/-- `extractJSONPathValue(json, jsonPath)`.  Returns the extracted value
plus a found flag; a missing or `null` result is "not found" (the source
returns `value: null` there, collapsed here to `none` — callers read the
value only when `found` is true).  The surrounding `try/catch` has no
effect in the model: `get` is total. -/
def extractJSONPathValue (json : JsValue) (jsonPath : String) :
    Option JsValue × Bool :=
  let path :=
    match jsonPath.data with
    | '$' :: '.' :: rest => String.mk rest
    | '$' :: rest => String.mk rest
    | _ => jsonPath
  if path = "" then (some json, true)
  else
    match get json path with
    | none => (none, false)
    | some .null => (none, false)
    | some v => (some v, true)

/-! ## Stringification -/

/-- Minimal JSON string escaping (backslash and double quote; control
characters do not occur in the verified inputs). -/
def escapeJsonString (s : String) : String :=
  String.mk (s.data.flatMap fun c =>
    if c = '\\' then ['\\', '\\']
    else if c = '"' then ['\\', '"']
    else [c])

mutual

/-- `JSON.stringify` on defined values (insertion-ordered object keys,
like V8). -/
def jsonStringify : JsValue → String
  | .null => "null"
  | .bool b => if b then "true" else "false"
  | .num n => toString n
  | .str s => "\"" ++ escapeJsonString s ++ "\""
  | .arr xs => "[" ++ String.intercalate "," (jsonStringifyList xs) ++ "]"
  | .obj es => "\x7b" ++ String.intercalate "," (jsonStringifyEntries es) ++ "\x7d"

def jsonStringifyList : List JsValue → List String
  | [] => []
  | x :: xs => jsonStringify x :: jsonStringifyList xs

def jsonStringifyEntries : List (String × JsValue) → List String
  | [] => []
  | (k, v) :: es =>
      ("\"" ++ escapeJsonString k ++ "\":" ++ jsonStringify v) :: jsonStringifyEntries es

end

mutual

/-- JS template-literal / `String()` coercion of a defined value
(arrays join their elements with commas, objects print as
`[object Object]`). -/
def jsDisplay : JsValue → String
  | .null => "null"
  | .bool b => if b then "true" else "false"
  | .num n => toString n
  | .str s => s
  | .arr xs => String.intercalate "," (jsDisplayList xs)
  | .obj _ => "[object Object]"

def jsDisplayList : List JsValue → List String
  | [] => []
  | x :: xs => jsDisplay x :: jsDisplayList xs

end

/-- Template-literal coercion including `undefined`. -/
def jsDisplayOpt : Option JsValue → String
  | none => "undefined"
  | some v => jsDisplay v

/-- `valueToString(value)` from the template utilities: empty string for
`null`/`undefined`, identity on strings, `JSON.stringify` otherwise. -/
def valueToString : Option JsValue → String
  | none => ""
  | some .null => ""
  | some (.str s) => s
  | some v => jsonStringify v

/-! ## Template scanning -/

/-- `NO_VALUE_PLACEHOLDER` from the source. -/
def NO_VALUE_PLACEHOLDER : String := "\x7bNo Value\x7d"

/-- `EXACT_TEMPLATE_PATTERN.test(s)` for `/^\{(\$[^}]+)\}$/`: the whole
string is `{$` followed by at least one non-`}` character and a final
`}`. -/
def exactTemplateTest (s : String) : Bool :=
  match s.data with
  | '\x7b' :: '$' :: rest =>
      (rest.getLast? == some '\x7d') && !rest.dropLast.isEmpty
        && rest.dropLast.all (fun c => c != '\x7d')
  | _ => false

/-- `templateString.replace(TEMPLATE_PATTERN, repl)` for
`/\{(\$[^}]+)\}/g`: scan left to right; at `{` followed by `$`, consume
non-`}` characters (at least one) up to a closing `}` and substitute
`repl` of the captured `$...` path, accumulating the replacer's recorded
errors; otherwise copy one character and continue (a failed match makes
the regex engine advance one position). -/
def scanTemplatesF (repl : String → String × List String) :
    Nat → List Char → List Char × List String
  | 0, _ => ([], [])
  | _, [] => ([], [])
  | fuel + 1, c :: rest =>
      if c = '\x7b' && rest.head? == some '$' then
        let sp := spanP (fun x => x != '\x7d') rest.tail
        if sp.1 ≠ [] ∧ sp.2 ≠ [] then
          let r := repl (String.mk ('$' :: sp.1))
          let r2 := scanTemplatesF repl fuel sp.2.tail
          (r.1.data ++ r2.1, r.2 ++ r2.2)
        else
          let r2 := scanTemplatesF repl fuel rest
          (c :: r2.1, r2.2)
      else
        let r2 := scanTemplatesF repl fuel rest
        (c :: r2.1, r2.2)

def scanTemplates (repl : String → String × List String)
    (l : List Char) : List Char × List String :=
  scanTemplatesF repl (l.length + 1) l

/-- The per-token replacer inside `resolveTemplateString`. -/
def templateRepl (jobContext : JsValue) (isExact omitNoValue : Bool)
    (jsonPath : String) : String × List String :=
  let ex := extractJSONPathValue jobContext jsonPath
  if !ex.2 then
    (if isExact && omitNoValue then "" else NO_VALUE_PLACEHOLDER,
     ["failed to extract field \x27" ++ jsonPath ++ "\x27: field not found"])
  else
    let strValue := valueToString ex.1
    if strValue = "" then
      ("", ["failed to extract field \x27" ++ jsonPath ++ "\x27: field is empty"])
    else (strValue, [])

/-- `resolveTemplateString(templateString, jobContext, options)`: replace
every template token, collecting error strings in match order. -/
def resolveTemplateString (templateString : String) (jobContext : JsValue)
    (omitNoValueForExactTemplates : Bool) : String × List String :=
  let isExact := exactTemplateTest templateString
  let r := scanTemplates
    (templateRepl jobContext isExact omitNoValueForExactTemplates)
    templateString.data
  (String.mk r.1, r.2)

/-! ## Dates

A constructed JS `Date` is a time value: integer milliseconds since the
Unix epoch (integral for every string input).  Rendering
(`Date.prototype.toISOString`) is exact, including the expanded-year
forms.  Parsing (`new Date(string)`) follows ECMA-262: a string
conforming to the Date Time String Format is interpreted per the
specification — date-only forms as UTC, date-time forms without an
offset in the host time zone — while a non-conforming string falls back
to engine-specific heuristics with no portable semantics, modelled by an
explicit oracle in `DateStringEnv`.  The current instant (`new Date()`),
which is only ever rendered, stays modelled by its UTC components
`JsDate`. -/

structure JsDate where
  year : Nat
  month : Nat
  day : Nat
  hour : Nat
  minute : Nat
  second : Nat
  millis : Nat
deriving Repr, DecidableEq

/-- Zero-padded decimal rendering. -/
def padNum (width n : Nat) : String :=
  let s := toString n
  String.mk (List.replicate (width - s.length) '0') ++ s

/-- `Date.prototype.toISOString` (years 0–9999). -/
def jsToISOString (d : JsDate) : String :=
  padNum 4 d.year ++ "-" ++ padNum 2 d.month ++ "-" ++ padNum 2 d.day ++ "T"
    ++ padNum 2 d.hour ++ ":" ++ padNum 2 d.minute ++ ":" ++ padNum 2 d.second
    ++ "." ++ padNum 3 d.millis ++ "Z"

/-- `formatRFC3339(date)`: `toISOString()` with the trailing `.mmmZ`
replaced by `Z` (the regex `\.\d{3}Z$`). -/
def formatRFC3339 (d : JsDate) : String :=
  let cs := jsToISOString d
  let l := cs.data
  if l.length ≥ 5 &&
      (match (l.drop (l.length - 5)) with
       | ['.', a, b, c, 'Z'] => isDigit a && isDigit b && isDigit c
       | _ => false) then
    String.mk (l.take (l.length - 5) ++ ['Z'])
  else cs

/-- Proleptic-Gregorian leap year for an astronomical (possibly
negative) year number. -/
def isLeapYear (y : Int) : Bool :=
  (Int.emod y 4 = 0 && Int.emod y 100 ≠ 0) || Int.emod y 400 = 0

def daysInMonth (y : Int) (m : Nat) : Nat :=
  if m = 2 then (if isLeapYear y then 29 else 28)
  else if m = 4 || m = 6 || m = 9 || m = 11 then 30
  else 31

/-- Parse a fixed-width digit run. -/
def parseDigits (l : List Char) (n : Nat) : Option (Nat × List Char) :=
  let pre := l.take n
  if pre.length = n && pre.all isDigit then
    some (pre.foldl (fun acc c => acc * 10 + (c.toNat - '0'.toNat)) 0, l.drop n)
  else none

/-- Days from the epoch 1970-01-01 to the civil date `y-m-d`. -/
def daysFromCivil (y : Int) (m d : Nat) : Int :=
  let y2 : Int := if m ≤ 2 then y - 1 else y
  let era : Int := Int.fdiv y2 400
  let yoe : Nat := (y2 - era * 400).toNat
  let mp : Nat := if 3 ≤ m then m - 3 else m + 9
  let doy : Nat := (153 * mp + 2) / 5 + d - 1
  let doe : Nat := yoe * 365 + yoe / 4 - yoe / 100 + doy
  era * 146097 + (doe : Int) - 719468

/-- Civil date `(year, month, day)` of an epoch day number. -/
def civilFromDays (days : Int) : Int × Nat × Nat :=
  let z : Int := days + 719468
  let era : Int := Int.fdiv z 146097
  let doe : Nat := (z - era * 146097).toNat
  let yoe : Nat := (doe - doe / 1460 + doe / 36524 - doe / 146096) / 365
  let y : Int := (yoe : Int) + era * 400
  let doy : Nat := doe - (365 * yoe + yoe / 4 - yoe / 100)
  let mp : Nat := (5 * doy + 2) / 153
  let d : Nat := doy - (153 * mp + 2) / 5 + 1
  let m : Nat := if mp < 10 then mp + 3 else mp - 9
  (if m ≤ 2 then y + 1 else y, m, d)

/-- `Date.prototype.toISOString` on a time value (milliseconds since the
epoch), including the signed six-digit expanded-year form for years
outside 0–9999. -/
def isoFromMillis (t : Int) : String :=
  let days : Int := Int.fdiv t 86400000
  let msd : Nat := (t - days * 86400000).toNat
  let c := civilFromDays days
  let yearStr :=
    if 0 ≤ c.1 ∧ c.1 ≤ 9999 then padNum 4 c.1.toNat
    else if c.1 < 0 then "-" ++ padNum 6 c.1.natAbs
    else "+" ++ padNum 6 c.1.toNat
  yearStr ++ "-" ++ padNum 2 c.2.1 ++ "-" ++ padNum 2 c.2.2 ++ "T"
    ++ padNum 2 (msd / 3600000) ++ ":" ++ padNum 2 (msd / 60000 % 60) ++ ":"
    ++ padNum 2 (msd / 1000 % 60) ++ "." ++ padNum 3 (msd % 1000) ++ "Z"

/-- The fields of a string conforming to the ECMA-262 Date Time String
Format `YYYY[-MM[-DD]][THH:mm[:ss[.frac]][Z|HH:mm offset]]`. -/
structure IsoComponents where
  year : Int
  month : Nat
  day : Nat
  hour : Nat
  minute : Nat
  second : Nat
  millis : Nat
  offset : Option Int
  hasTime : Bool
deriving Repr

/-- The year field: four digits, or an expanded six-digit year with a
mandatory sign (`-000000` is explicitly not a valid instance). -/
def parseYearE : List Char → Option (Int × List Char)
  | '+' :: t => do
      let (n, r) ← parseDigits t 6
      some ((n : Int), r)
  | '-' :: t => do
      let (n, r) ← parseDigits t 6
      if n = 0 then none else some (-(n : Int), r)
  | l => do
      let (n, r) ← parseDigits l 4
      some ((n : Int), r)

/-- Recogniser for the ECMA-262 Date Time String Format: digit counts,
separators and literal field ranges exactly as the grammar prescribes
(months 01–12, days 01–31, hours 00–24, minutes/seconds 00–59, a
fraction of at least one digit read at millisecond precision, offsets
up to 23:59).  `none` means the string is not a conforming instance, so
its parse falls to the engine-specific heuristics. -/
def parseIsoDateTime (l : List Char) : Option IsoComponents := do
  let (y, r1) ← parseYearE l
  let (mo, da, r3) ←
    match r1 with
    | '-' :: t => do
        let (n, r) ← parseDigits t 2
        if n < 1 ∨ 12 < n then none
        else
          match r with
          | '-' :: t2 => do
              let (dd, r2) ← parseDigits t2 2
              if dd < 1 ∨ 31 < dd then none else some (n, dd, r2)
          | _ => some (n, 1, r)
    | _ => some (1, 1, r1)
  match r3 with
  | [] => some ⟨y, mo, da, 0, 0, 0, 0, none, false⟩
  | 'T' :: t => do
      let (hh, r4) ← parseDigits t 2
      if 24 < hh then none
      else
        match r4 with
        | ':' :: t2 => do
            let (mi, r5) ← parseDigits t2 2
            if 59 < mi then none
            else do
              let (ss, ms, r7) ←
                match r5 with
                | ':' :: t3 => do
                    let (s2, r6) ← parseDigits t3 2
                    if 59 < s2 then none
                    else
                      match r6 with
                      | '.' :: t4 =>
                          let digs := t4.takeWhile isDigit
                          if digs.isEmpty then none
                          else some (s2,
                            (digs.take 3 ++ List.replicate (3 - digs.length) '0').foldl
                              (fun acc c => acc * 10 + (c.toNat - '0'.toNat)) 0,
                            t4.drop digs.length)
                      | _ => some (s2, 0, r6)
                | _ => some (0, 0, r5)
              match r7 with
              | [] => some ⟨y, mo, da, hh, mi, ss, ms, none, true⟩
              | ['Z'] => some ⟨y, mo, da, hh, mi, ss, ms, some 0, true⟩
              | c :: t5 =>
                  if c = '+' ∨ c = '-' then do
                    let (oh, r8) ← parseDigits t5 2
                    if 23 < oh then none
                    else
                      match r8 with
                      | ':' :: t6 => do
                          let (om, r9) ← parseDigits t6 2
                          if 59 < om ∨ r9 ≠ [] then none
                          else some ⟨y, mo, da, hh, mi, ss, ms,
                            some (if c = '+' then ((oh * 60 + om : Nat) : Int)
                                  else -((oh * 60 + om : Nat) : Int)), true⟩
                      | _ => none
                  else none
        | _ => none
  | _ => none

/-- The host-dependent ingredients of `new Date(string)`: the UTC offset
(minutes east of UTC) the host zone applies to conforming date-time
strings that carry no offset of their own (a constant, exact for
fixed-offset zones), and the engine-specific heuristic parser that
non-conforming strings fall back to — ECMA-262 leaves it free, so it is
an explicit oracle returning a time value or `none` for Invalid Date. -/
structure DateStringEnv where
  tzOffset : Int
  fallbackMs : String → Option Int

/-- A UTC host whose engine accepts no non-conforming date string. -/
def utcDateEnv : DateStringEnv := ⟨0, fun _ => none⟩

/-- Time value of a conforming date-time string: invalid when the day
does not exist in that month, when hour 24 carries a non-zero time, or
when the instant falls outside the representable range of 8.64e15 ms
either side of the epoch; otherwise milliseconds since the epoch, with
offset-less date-only forms read as UTC and offset-less date-time forms
as host-zone local time. -/
def evalIso (tz : Int) (c : IsoComponents) : Option Int :=
  if daysInMonth c.year c.month < c.day then none
  else if c.hour = 24 ∧ ¬(c.minute = 0 ∧ c.second = 0 ∧ c.millis = 0) then none
  else
    let off : Int :=
      match c.offset with
      | some o => o
      | none => if c.hasTime then tz else 0
    let t : Int := daysFromCivil c.year c.month c.day * 86400000
      + ((c.hour * 3600000 + c.minute * 60000 + c.second * 1000 + c.millis : Nat) : Int)
      - off * 60000
    if t.natAbs ≤ 8640000000000000 then some t else none

/-- `new Date(string)` as an epoch time value; `none` models
`isNaN(date.getTime())`. -/
def jsDateParse (denv : DateStringEnv) (s : String) : Option Int :=
  match parseIsoDateTime s.data with
  | some c => evalIso denv.tzOffset c
  | none => denv.fallbackMs s

/-! ## SGNL namespace injection -/

/-- The enumerable own entries produced by spreading a value into an
object literal: objects spread their entries, arrays and strings their
indexed elements, primitives nothing. -/
def spreadEntries : Option JsValue → List (String × JsValue)
  | some (.obj es) => es
  | some (.arr xs) => (xs.enum.map fun p => (toString p.1, p.2))
  | some (.str s) => (s.data.enum.map fun p => (toString p.1, JsValue.str (String.mk [p.2])))
  | _ => []

/-- Assigning key `k` in an object literal being built: overwrite in
place when present (JS keeps the first insertion position), else append.
(Real JS objects never carry duplicate keys, so first-occurrence
overwrite is exact.) -/
def setEntry : List (String × JsValue) → String → JsValue →
    List (String × JsValue)
  | [], k, v => [(k, v)]
  | (k1, v1) :: rest, k, v =>
      if k1 = k then (k1, v) :: rest
      else (k1, v1) :: setEntry rest k v

/-- Folding a spread after explicit keys: `{ k1: v1, ...rest }`. -/
def mergeEntries (base add : List (String × JsValue)) :
    List (String × JsValue) :=
  add.foldl (fun acc e => setEntry acc e.1 e.2) base

/-- Optional chaining `v?.k` (our receivers are always defined values, so
only property access remains). -/
def optChain (v : Option JsValue) (k : String) : Option JsValue :=
  match v with
  | some w => jsProp w k
  | none => none

/-- `injectSGNLNamespace(jobContext)` with the two runtime inputs made
explicit: the freshly observed date and the freshly generated UUID.
Faithful to the source spreads: existing `sgnl.time`/`sgnl.random`
entries are spread after the fresh values and therefore win. -/
def injectSGNLNamespace (jobContext : JsValue) (nowDate : JsDate) (uuid : String) :
    JsValue :=
  let sgnlOld := jsProp jobContext "sgnl"
  let timeObj := mergeEntries [("now", .str (formatRFC3339 nowDate))]
    (spreadEntries (optChain sgnlOld "time"))
  let randomObj := mergeEntries [("uuid", .str uuid)]
    (spreadEntries (optChain sgnlOld "random"))
  let sgnlNew := setEntry (setEntry (spreadEntries sgnlOld) "time" (.obj timeObj))
    "random" (.obj randomObj)
  .obj (setEntry (spreadEntries (some jobContext)) "sgnl" (.obj sgnlNew))

/-- Strict equality with the empty string (`item !== ''` /
`resolvedVal === ''` in the omit filters). -/
def isEmptyStr : JsValue → Bool
  | .str s => s = ""
  | _ => false

/-! ## Full template resolution -/

structure ResolveOptions where
  omitNoValueForExactTemplates : Bool := false
  injectSGNLNamespace : Bool := true
deriving Repr

mutual

/-- The inner `resolveValue` of `resolveJSONPathTemplates`: strings are
template-resolved, arrays map elementwise (dropping empty-string results
when the omit option is on), objects rebuild entry by entry (skipping
keys whose resolved value is the empty string when the omit option is
on), and other primitives pass through.  Errors accumulate in traversal
order. -/
def resolveValue (ctx : JsValue) (omitOpt : Bool) : JsValue → JsValue × List String
  | .str s =>
      let r := resolveTemplateString s ctx omitOpt
      (.str r.1, r.2)
  | .arr xs =>
      let r := resolveValueList ctx omitOpt xs
      (.arr (if omitOpt then r.1.filter (fun v => !isEmptyStr v) else r.1), r.2)
  | .obj es =>
      let r := resolveValueEntries ctx omitOpt es
      (.obj r.1, r.2)
  | v => (v, [])

def resolveValueList (ctx : JsValue) (omitOpt : Bool) :
    List JsValue → List JsValue × List String
  | [] => ([], [])
  | x :: xs =>
      let r := resolveValue ctx omitOpt x
      let rs := resolveValueList ctx omitOpt xs
      (r.1 :: rs.1, r.2 ++ rs.2)

def resolveValueEntries (ctx : JsValue) (omitOpt : Bool) :
    List (String × JsValue) → List (String × JsValue) × List String
  | [] => ([], [])
  | (k, v) :: es =>
      let r := resolveValue ctx omitOpt v
      let rs := resolveValueEntries ctx omitOpt es
      ((if omitOpt && isEmptyStr r.1 then rs.1 else (k, r.1) :: rs.1),
       r.2 ++ rs.2)

end

/-- `resolveJSONPathTemplates(input, jobContext, options)`: inject the
SGNL namespace once (unless disabled), then resolve recursively.  A falsy
job context is replaced by an empty object (`jobContext || {}`). -/
def resolveJSONPathTemplates (input : JsValue) (jobContext : JsValue)
    (nowDate : JsDate) (uuid : String) (options : ResolveOptions) :
    JsValue × List String :=
  let base := if jsTruthy jobContext then jobContext else .obj []
  let resolvedJobContext :=
    if options.injectSGNLNamespace then injectSGNLNamespace base nowDate uuid
    else base
  resolveValue resolvedJobContext options.omitNoValueForExactTemplates input

/-! ## Authentication utilities -/

/-- The standard base64 alphabet. -/
def base64Alphabet : List Char :=
  "ABCDEFGHIJKLMNOPQRSTUVWXYZabcdefghijklmnopqrstuvwxyz0123456789+/".data

def base64Char (n : Nat) : Char := (base64Alphabet.get? n).getD 'A'

/-- Base64 of a byte list (3 bytes to 4 characters, `=` padding). -/
def base64Encode : List Nat → List Char
  | [] => []
  | [a] =>
      [base64Char (a / 4), base64Char (a % 4 * 16), '=', '=']
  | [a, b] =>
      [base64Char (a / 4), base64Char (a % 4 * 16 + b / 16),
       base64Char (b % 16 * 4), '=']
  | a :: b :: c :: rest =>
      base64Char (a / 4) :: base64Char (a % 4 * 16 + b / 16)
        :: base64Char (b % 16 * 4 + c / 64) :: base64Char (c % 64)
        :: base64Encode rest

/-- `btoa(s)` / `Buffer.from(s).toString('base64')` on the latin-1 range
(credentials in the verified paths are ASCII; `btoa` would throw above
code point 255, which no verified input reaches). -/
def btoa (s : String) : String :=
  String.mk (base64Encode (s.data.map fun c => c.toNat % 256))

/-- An HTTP response as observed by the action: `ok`/`status`/`statusText`,
the JSON body when `response.json()` succeeds (`none` means the body is
not JSON and `json()` throws), and the raw text body. -/
structure HttpResponse where
  ok : Bool
  status : Nat
  statusText : String
  jsonBody : Option JsValue
  textBody : String
deriving Repr, Inhabited

/-- Message standing in for the engine `SyntaxError` thrown by
`response.json()` on a non-JSON body (the exact host text is
engine-specific and never inspected by the code). -/
def jsonParseThrowMessage : String := "SyntaxError: unexpected token in JSON"

/-- The token request built by `getClientCredentialsToken`: URL-encoded
body parameters in append order plus the optional Basic authorization
header (`authStyle` other than `InParams`, the default, sends the client
credentials in the header). -/
structure TokenRequest where
  url : String
  bodyParams : List (String × String)
  authHeader : Option String
deriving Repr

def buildTokenRequest (tokenUrl clientId clientSecret : String)
    (scope audience authStyle : Option String) : TokenRequest :=
  let params0 := [("grant_type", "client_credentials")]
  let params1 := params0 ++ (if strTruthy scope then [("scope", scope.getD "")] else [])
  let params2 := params1 ++ (if strTruthy audience then [("audience", audience.getD "")] else [])
  if authStyle = some "InParams" then
    { url := tokenUrl
      bodyParams := params2 ++ [("client_id", clientId), ("client_secret", clientSecret)]
      authHeader := none }
  else
    { url := tokenUrl
      bodyParams := params2
      authHeader := some ("Basic " ++ btoa (clientId ++ ":" ++ clientSecret)) }

/-- `getClientCredentialsToken(config)` with the token endpoint's response
passed in.  Returns the `access_token` value (a `JsValue`, used downstream
through template-literal coercion) or the thrown error message. -/
def getClientCredentialsToken (tokenUrl clientId clientSecret : String)
    (tokenResp : HttpResponse) : Except String JsValue :=
  if tokenUrl = "" || clientId = "" || clientSecret = "" then
    .error "OAuth2 Client Credentials flow requires tokenUrl, clientId, and clientSecret"
  else if !tokenResp.ok then
    let errorText :=
      match tokenResp.jsonBody with
      | some errorData => jsonStringify errorData
      | none => tokenResp.textBody
    .error ("OAuth2 token request failed: " ++ toString tokenResp.status ++ " "
      ++ tokenResp.statusText ++ " - " ++ errorText)
  else
    match tokenResp.jsonBody with
    | none => .error jsonParseThrowMessage
    | some data =>
        if !optTruthy (jsProp data "access_token") then
          .error "No access_token in OAuth2 response"
        else .ok ((jsProp data "access_token").getD .null)

/-- Execution context: environment variables, secrets, and the optional
job data tree (`context.data`, `.null` standing for an absent field). -/
structure ExecContext where
  environment : List (String × String)
  secrets : List (String × String)
  data : JsValue := .null
deriving Repr

/-- `getAuthorizationHeader(context)` with the (at most one) token
endpoint response passed in.  Returns the header value or the thrown
error message, paired with the number of outbound HTTP calls performed. -/
def getAuthorizationHeader (ctx : ExecContext) (tokenResp : HttpResponse) :
    Except String String × Nat :=
  let env := ctx.environment
  let secrets := ctx.secrets
  if strTruthy (lookupStr secrets "BEARER_AUTH_TOKEN") then
    let token := (lookupStr secrets "BEARER_AUTH_TOKEN").getD ""
    (.ok (if startsWithStr token "Bearer " then token else "Bearer " ++ token), 0)
  else if strTruthy (lookupStr secrets "BASIC_PASSWORD")
      && strTruthy (lookupStr secrets "BASIC_USERNAME") then
    (.ok ("Basic " ++ btoa ((lookupStr secrets "BASIC_USERNAME").getD ""
      ++ ":" ++ (lookupStr secrets "BASIC_PASSWORD").getD "")), 0)
  else if strTruthy (lookupStr secrets "OAUTH2_AUTHORIZATION_CODE_ACCESS_TOKEN") then
    let token := (lookupStr secrets "OAUTH2_AUTHORIZATION_CODE_ACCESS_TOKEN").getD ""
    (.ok (if startsWithStr token "Bearer " then token else "Bearer " ++ token), 0)
  else if strTruthy (lookupStr secrets "OAUTH2_CLIENT_CREDENTIALS_CLIENT_SECRET") then
    let tokenUrl := lookupStr env "OAUTH2_CLIENT_CREDENTIALS_TOKEN_URL"
    let clientId := lookupStr env "OAUTH2_CLIENT_CREDENTIALS_CLIENT_ID"
    if !strTruthy tokenUrl || !strTruthy clientId then
      (.error "OAuth2 Client Credentials flow requires TOKEN_URL and CLIENT_ID in env", 0)
    else
      match getClientCredentialsToken (tokenUrl.getD "") (clientId.getD "")
        ((lookupStr secrets "OAUTH2_CLIENT_CREDENTIALS_CLIENT_SECRET").getD "")
        tokenResp with
      | .error e => (.error e, 1)
      | .ok tok => (.ok ("Bearer " ++ jsDisplay tok), 1)
  else
    (.error ("No authentication configured. Provide one of: "
      ++ "BEARER_AUTH_TOKEN, BASIC_USERNAME/BASIC_PASSWORD, "
      ++ "OAUTH2_AUTHORIZATION_CODE_ACCESS_TOKEN, or OAUTH2_CLIENT_CREDENTIALS_*"), 0)

/-- `getBaseURL(params, context)`: the `address` parameter when truthy,
else the `ADDRESS` environment value; error when neither; trailing slash
stripped.  A truthy non-string `address` parameter would make the JS
`endsWith` call throw `TypeError`, modelled as an error result. -/
def getBaseURL (params : JsValue) (ctx : ExecContext) : Except String String :=
  let chosen : Option JsValue :=
    if optTruthy (jsProp params "address") then jsProp params "address"
    else match lookupStr ctx.environment "ADDRESS" with
      | some s => some (.str s)
      | none => none
  if !optTruthy chosen then
    .error "No URL specified. Provide address parameter or ADDRESS environment variable"
  else
    match chosen with
    | some (.str address) =>
        .ok (if address.data.getLast? == some '/' then
          String.mk address.data.dropLast else address)
    | _ => .error "TypeError: address.endsWith is not a function"

/-! ## Revoke-access request builder and `invoke` (bundled variant,
`src/unnamed/part_001` / `dist/index.js`) -/

/-- One outbound revoke POST as built by `revokeAccess`. -/
structure RevokeCall where
  url : String
  authHeader : String
  body : JsValue
deriving Repr

/-- The request-body construction inside `revokeAccess(params, baseUrl,
authToken)` of the bundled variant, up to the `fetch`: the body object in
insertion order, or the thrown `itemComment` error.  A missing
`identityId`/`itemType`/`itemId` serialises as JSON `null`, matching
`JSON.stringify` on `undefined` array elements and skipped object keys
(the three fields are always present in the verified scenarios). -/
def revokeAccess (params : JsValue) (baseUrl authToken : String)
    (denv : DateStringEnv) : Except String RevokeCall :=
  let identityId := (jsProp params "identityId").getD .null
  let itemType := (jsProp params "itemType").getD .null
  let itemId := (jsProp params "itemId").getD .null
  let itemComment := jsProp params "itemComment"
  let itemRemoveDate := jsProp params "itemRemoveDate"
  if !optTruthy itemComment then
    .error "itemComment is required for REVOKE_ACCESS requests"
  else
    let item0 : List (String × JsValue) :=
      [("type", itemType), ("id", itemId), ("comment", itemComment.getD .null)]
    let item1 :=
      if optTruthy itemRemoveDate then
        match itemRemoveDate with
        | some (.str s) =>
            match jsDateParse denv s with
            | some t => item0 ++ [("removeDate", .str (isoFromMillis t))]
            | none => item0
        | _ => item0
      else item0
    .ok
      { url := baseUrl ++ "/v3/access-requests"
        authHeader := authToken
        body := .obj
          [("requestedFor", .arr [identityId]),
           ("requestType", .str "REVOKE_ACCESS"),
           ("requestedItems", .arr [.obj item1])] }

/-- The error-message computation of `invoke`'s failure path (bundled
variant): provider `detailCode` plus `trackingId`, else first
`messages[].text`, else `message`, else the raw text body, else the bare
HTTP status line. -/
def buildErrorMessage (resp : HttpResponse) : String :=
  let base := "Failed to create revoke access request: "
  let fallback := base ++ "HTTP " ++ toString resp.status
  match resp.jsonBody with
  | some errorBody =>
      if optTruthy (jsProp errorBody "detailCode") then
        base ++ jsDisplayOpt (jsProp errorBody "detailCode") ++ " - "
          ++ (if optTruthy (jsProp errorBody "trackingId") then
                jsDisplayOpt (jsProp errorBody "trackingId")
              else "")
      else
        match jsProp errorBody "messages" with
        | some (.arr (m :: _)) => base ++ jsDisplayOpt (jsProp m "text")
        | some (.str s) =>
            -- a truthy string also passes `messages && messages.length > 0`;
            -- `messages[0]` is then a one-character string whose `.text` is
            -- undefined
            if s ≠ "" then base ++ "undefined"
            else if optTruthy (jsProp errorBody "message") then
              base ++ jsDisplayOpt (jsProp errorBody "message")
            else fallback
        | _ =>
            if optTruthy (jsProp errorBody "message") then
              base ++ jsDisplayOpt (jsProp errorBody "message")
            else fallback
  | none =>
      if resp.textBody ≠ "" then base ++ resp.textBody else fallback

/-- A thrown JS error as observed by the harness: its message and the
`statusCode` attribute when one was attached. -/
structure JsError where
  message : String
  statusCode : Option Nat
deriving Repr

/-- The success result object of `invoke` (bundled variant). -/
structure InvokeResult where
  requestId : Option JsValue
  identityId : Option JsValue
  itemType : Option JsValue
  itemId : Option JsValue
  status : JsValue
  requestedAt : String
  address : String
deriving Repr

/-- What one `invoke` run did: its returned result or thrown error, and
the revoke POSTs it performed (the auth-token fetch is counted separately
by `getAuthorizationHeader`). -/
structure InvokeOutcome where
  result : Except JsError InvokeResult
  revokeRequests : List RevokeCall
deriving Repr

/-- `invoke(params, context)` of the bundled variant, with the runtime
inputs explicit: current date and fresh UUID (for the template
namespace), the token-endpoint response (used only when OAuth2
client-credentials auth is selected), the revoke POST's response, and the
`requestedAt` timestamp taken at result construction.  Template
resolution errors are only logged by the source and are dropped here. -/
def invoke (params : JsValue) (ctx : ExecContext) (nowDate : JsDate)
    (uuid : String) (tokenResp revokeResp : HttpResponse)
    (requestedAt : String) (denv : DateStringEnv) : InvokeOutcome :=
  let jobContext := if jsTruthy ctx.data then ctx.data else .obj []
  let resolvedParams := (resolveJSONPathTemplates params jobContext nowDate uuid {}).1
  let identityId := jsProp resolvedParams "identityId"
  let itemType := jsProp resolvedParams "itemType"
  let itemId := jsProp resolvedParams "itemId"
  let typeOk :=
    match itemType with
    | some (.str s) => s = "ACCESS_PROFILE" || s = "ROLE" || s = "ENTITLEMENT"
    | _ => false
  if !typeOk then
    { result := .error ⟨"itemType must be ACCESS_PROFILE, ROLE, or ENTITLEMENT", none⟩
      revokeRequests := [] }
  else
    match getBaseURL resolvedParams ctx with
    | .error msg => { result := .error ⟨msg, none⟩, revokeRequests := [] }
    | .ok baseUrl =>
        match (getAuthorizationHeader ctx tokenResp).1 with
        | .error msg => { result := .error ⟨msg, none⟩, revokeRequests := [] }
        | .ok authHeader =>
            match revokeAccess resolvedParams baseUrl authHeader denv with
            | .error msg => { result := .error ⟨msg, none⟩, revokeRequests := [] }
            | .ok call =>
                if revokeResp.ok then
                  match revokeResp.jsonBody with
                  | none =>
                      { result := .error ⟨jsonParseThrowMessage, none⟩
                        revokeRequests := [call] }
                  | some responseData =>
                      { result := .ok
                          { requestId := jsProp responseData "id"
                            identityId := identityId
                            itemType := itemType
                            itemId := itemId
                            status :=
                              if optTruthy (jsProp responseData "status") then
                                (jsProp responseData "status").getD .null
                              else .str "PENDING"
                            requestedAt := requestedAt
                            address := baseUrl }
                        revokeRequests := [call] }
                else
                  { result := .error
                      ⟨buildErrorMessage revokeResp, some revokeResp.status⟩
                    revokeRequests := [call] }

/-! ## Older variant (`src/unnamed/part_000`): `sailpointDomain`-based
`revokeAccess`, `invoke`, and the retrying `error` handler -/

/-- Whitespace accepted by `JSON.parse`. -/
def isJsonWs (c : Char) : Bool :=
  c = ' ' || c = '\t' || c = '\n' || c = '\r'

/-- Consume the rest of a JSON string literal after the opening quote
(escapes skip the next character). -/
def jsonChompString : List Char → Option (List Char)
  | [] => none
  | '"' :: rest => some rest
  | '\\' :: _ :: rest => jsonChompString rest
  | _ :: rest => jsonChompString rest

/-- Optional exponent part of a JSON number. -/
def jsonChompExp (l : List Char) : Option (List Char) :=
  match l with
  | c :: r =>
      if c = 'e' || c = 'E' then
        let r2 := match r with
          | '+' :: t => t
          | '-' :: t => t
          | _ => r
        let ds := r2.takeWhile isDigit
        if ds.isEmpty then none else some (r2.drop ds.length)
      else some l
  | [] => some l

/-- Optional fraction, then exponent, of a JSON number. -/
def jsonChompFrac (l : List Char) : Option (List Char) :=
  match l with
  | '.' :: r =>
      let ds := r.takeWhile isDigit
      if ds.isEmpty then none else jsonChompExp (r.drop ds.length)
  | _ => jsonChompExp l

/-- One JSON number per the `JSON.parse` grammar: optional minus, an
integer part with no leading zero, optional fraction and exponent. -/
def jsonChompNumber (l : List Char) : Option (List Char) :=
  let l1 := match l with
    | '-' :: r => r
    | _ => l
  match l1 with
  | '0' :: r => jsonChompFrac r
  | c :: r => if isDigit c then jsonChompFrac (r.dropWhile isDigit) else none
  | [] => none

mutual

/-- Fuel-indexed JSON syntax checker standing in for `JSON.parse`
succeeding; consumes one JSON value and returns the remainder. -/
def jsonChomp : Nat → List Char → Option (List Char)
  | 0, _ => none
  | fuel + 1, l =>
      let l := l.dropWhile isJsonWs
      match l with
      | '"' :: rest => jsonChompString rest
      | 't' :: 'r' :: 'u' :: 'e' :: rest => some rest
      | 'f' :: 'a' :: 'l' :: 's' :: 'e' :: rest => some rest
      | 'n' :: 'u' :: 'l' :: 'l' :: rest => some rest
      | '[' :: rest =>
          let rest := rest.dropWhile isJsonWs
          match rest with
          | ']' :: rest2 => some rest2
          | _ => jsonChompElems fuel rest
      | '\x7b' :: rest =>
          let rest := rest.dropWhile isJsonWs
          match rest with
          | '\x7d' :: rest2 => some rest2
          | _ => jsonChompMembers fuel rest
      | c :: rest =>
          if c = '-' || isDigit c then jsonChompNumber (c :: rest)
          else none
      | [] => none

/-- Elements of a non-empty JSON array after `[`. -/
def jsonChompElems (fuel : Nat) (l : List Char) : Option (List Char) :=
  match fuel with
  | 0 => none
  | f + 1 => do
      let r ← jsonChomp f l
      let r := r.dropWhile isJsonWs
      match r with
      | ']' :: r2 => some r2
      | ',' :: r2 => jsonChompElems f r2
      | _ => none

/-- Members of a non-empty JSON object after `{`. -/
def jsonChompMembers (fuel : Nat) (l : List Char) : Option (List Char) :=
  match fuel with
  | 0 => none
  | f + 1 =>
      match l.dropWhile isJsonWs with
      | '"' :: rest => do
          let r ← jsonChompString rest
          let r := r.dropWhile isJsonWs
          match r with
          | ':' :: r2 => do
              let r3 ← jsonChomp f r2
              let r3 := r3.dropWhile isJsonWs
              match r3 with
              | '\x7d' :: r4 => some r4
              | ',' :: r4 => jsonChompMembers f r4
              | _ => none
          | _ => none
      | _ => none

end

/-- `JSON.parse(s)` succeeding (validity only — the parsed value is never
used by the action, only the original string is forwarded). -/
def jsonParseOk (s : String) : Bool :=
  match jsonChomp (s.length + 1) s.data with
  | some rest => rest.dropWhile isJsonWs = []
  | none => false

/-- The request-body construction inside the older `revokeAccess(params,
sailpointDomain, authToken)`, up to the `fetch`: adds the optional
`clientMetadata`/`itemClientMetadata` JSON strings after validating them
with `JSON.parse` (invalid ones are skipped with a logged error), and
prefixes the token with `Bearer ` when missing. -/
def revokeAccess0 (params : JsValue) (sailpointDomain authToken : String)
    (denv : DateStringEnv) : Except String RevokeCall :=
  let identityId := (jsProp params "identityId").getD .null
  let itemType := (jsProp params "itemType").getD .null
  let itemId := (jsProp params "itemId").getD .null
  let itemComment := jsProp params "itemComment"
  let itemRemoveDate := jsProp params "itemRemoveDate"
  let clientMetadata := jsProp params "clientMetadata"
  let itemClientMetadata := jsProp params "itemClientMetadata"
  if !optTruthy itemComment then
    .error "itemComment is required for REVOKE_ACCESS requests"
  else
    let item0 : List (String × JsValue) :=
      [("type", itemType), ("id", itemId), ("comment", itemComment.getD .null)]
    let item1 :=
      if optTruthy itemRemoveDate then
        match itemRemoveDate with
        | some (.str s) =>
            match jsDateParse denv s with
            | some t => item0 ++ [("removeDate", .str (isoFromMillis t))]
            | none => item0
        | _ => item0
      else item0
    let item2 :=
      match itemClientMetadata with
      | some (.str s) =>
          if s ≠ "" && jsonParseOk s then item1 ++ [("clientMetadata", .str s)]
          else item1
      | _ => item1
    let body0 : List (String × JsValue) :=
      [("requestedFor", .arr [identityId]),
       ("requestType", .str "REVOKE_ACCESS"),
       ("requestedItems", .arr [.obj item2])]
    let body1 :=
      match clientMetadata with
      | some (.str s) =>
          if s ≠ "" && jsonParseOk s then body0 ++ [("clientMetadata", .str s)]
          else body0
      | _ => body0
    .ok
      { url := "https://" ++ sailpointDomain ++ "/v3/access-requests"
        authHeader :=
          if startsWithStr authToken "Bearer " then authToken
          else "Bearer " ++ authToken
        body := .obj body1 }

/-- The error-message computation of the older `invoke`'s failure path
(it has no `messages[]` branch). -/
def buildErrorMessage0 (resp : HttpResponse) : String :=
  let base := "Failed to create revoke access request: "
  let fallback := base ++ "HTTP " ++ toString resp.status
  match resp.jsonBody with
  | some errorBody =>
      if optTruthy (jsProp errorBody "detailCode") then
        base ++ jsDisplayOpt (jsProp errorBody "detailCode") ++ " - "
          ++ (if optTruthy (jsProp errorBody "trackingId") then
                jsDisplayOpt (jsProp errorBody "trackingId")
              else "")
      else if optTruthy (jsProp errorBody "message") then
        base ++ jsDisplayOpt (jsProp errorBody "message")
      else fallback
  | none =>
      if resp.textBody ≠ "" then base ++ resp.textBody else fallback

/-- `invoke(params, context)` of the older variant: explicit validation
of `identityId`/`itemType`/`itemId`/`sailpointDomain` (non-empty
strings), the `SAILPOINT_API_TOKEN` secret, and `itemComment`, then one
POST via `revokeAccess0`. -/
def invoke0 (params : JsValue) (ctx : ExecContext)
    (revokeResp : HttpResponse) (requestedAt : String)
    (denv : DateStringEnv) : InvokeOutcome :=
  let isNonEmptyStr : Option JsValue → Bool := fun v =>
    match v with
    | some (.str s) => s ≠ ""
    | _ => false
  let identityId := jsProp params "identityId"
  let itemType := jsProp params "itemType"
  let itemId := jsProp params "itemId"
  let sailpointDomain := jsProp params "sailpointDomain"
  if !isNonEmptyStr identityId then
    { result := .error ⟨"Invalid or missing identityId parameter", none⟩
      revokeRequests := [] }
  else if !isNonEmptyStr itemType then
    { result := .error ⟨"Invalid or missing itemType parameter", none⟩
      revokeRequests := [] }
  else if !(match itemType with
      | some (.str s) => s = "ACCESS_PROFILE" || s = "ROLE" || s = "ENTITLEMENT"
      | _ => false) then
    { result := .error ⟨"itemType must be ACCESS_PROFILE, ROLE, or ENTITLEMENT", none⟩
      revokeRequests := [] }
  else if !isNonEmptyStr itemId then
    { result := .error ⟨"Invalid or missing itemId parameter", none⟩
      revokeRequests := [] }
  else if !isNonEmptyStr sailpointDomain then
    { result := .error ⟨"Invalid or missing sailpointDomain parameter", none⟩
      revokeRequests := [] }
  else if !strTruthy (lookupStr ctx.secrets "SAILPOINT_API_TOKEN") then
    { result := .error ⟨"Missing required secret: SAILPOINT_API_TOKEN", none⟩
      revokeRequests := [] }
  else if !isNonEmptyStr (jsProp params "itemComment") then
    { result := .error ⟨"itemComment is required for revoke access requests", none⟩
      revokeRequests := [] }
  else
    let domain := match sailpointDomain with
      | some (.str s) => s
      | _ => ""
    match revokeAccess0 params domain
      ((lookupStr ctx.secrets "SAILPOINT_API_TOKEN").getD "") denv with
    | .error msg => { result := .error ⟨msg, none⟩, revokeRequests := [] }
    | .ok call =>
        if revokeResp.ok then
          match revokeResp.jsonBody with
          | none =>
              { result := .error ⟨jsonParseThrowMessage, none⟩
                revokeRequests := [call] }
          | some responseData =>
              { result := .ok
                  { requestId := jsProp responseData "id"
                    identityId := identityId
                    itemType := itemType
                    itemId := itemId
                    status :=
                      if optTruthy (jsProp responseData "status") then
                        (jsProp responseData "status").getD .null
                      else .str "PENDING"
                    requestedAt := requestedAt
                    address := domain }
                revokeRequests := [call] }
        else
          { result := .error
              ⟨buildErrorMessage0 revokeResp, some revokeResp.status⟩
            revokeRequests := [call] }

/-! ## Retrying error handler (older variant) -/

/-- `l` starts with `sub`. -/
def startsWithList : List Char → List Char → Bool
  | _, [] => true
  | [], _ :: _ => false
  | c :: cs, d :: ds => c = d && startsWithList cs ds

/-- `sub` occurs somewhere in `l` (`String.prototype.includes`). -/
def containsSubList : List Char → List Char → Bool
  | [], sub => sub.isEmpty
  | c :: rest, sub => startsWithList (c :: rest) sub || containsSubList rest sub

def containsSub (s sub : String) : Bool := containsSubList s.data sub.data

/-- `parseInt(s, 10)`: skip leading whitespace, optional sign, then the
longest digit prefix; `none` models `NaN`. -/
def parseIntJs (s : String) : Option Int :=
  let cs := s.data.dropWhile (fun c => c = ' ' || c = '\t' || c = '\n' || c = '\r')
  let signed : Int × List Char :=
    match cs with
    | '-' :: r => (-1, r)
    | '+' :: r => (1, r)
    | _ => (1, cs)
  let ds := signed.2.takeWhile isDigit
  if ds.isEmpty then none
  else some (signed.1 * (ds.foldl (fun acc c => acc * 10 + (c.toNat - '0'.toNat) : Nat → Char → Nat) 0 : Nat))

/-- Which bounded-retry category an attempt belonged to. -/
inductive RetryKind where
  | rateLimit
  | service
deriving Repr, DecidableEq

/-- The result object returned by a successful recovery. -/
structure RecoveryResult where
  requestId : Option JsValue
  identityId : Option JsValue
  itemType : Option JsValue
  itemId : Option JsValue
  status : JsValue
  requestedAt : String
  recoveryMethod : String
deriving Repr

/-- What one `error(params, context)` run did: returned result or thrown
message, the backoff sleeps performed in order (`none` models a `NaN`
duration), and the retry POST attempts in order. -/
structure HandlerOutcome where
  result : Except String RecoveryResult
  sleeps : List (Option Int)
  retries : List RetryKind
deriving Repr

/-- Outcome of one retry POST inside the error handler. -/
inductive RetryAttempt where
  | thrown (msg : String)
  | succeeded (responseData : JsValue)
  | notOk
deriving Repr

/-- One `revokeAccess` retry inside the error handler: rebuild the
request from `params` (which can itself throw), send it, and parse the
body on an ok response.  A missing `SAILPOINT_API_TOKEN` makes the JS
`authToken.startsWith` call throw, modelled as a thrown `TypeError`. -/
def retryAttempt (params : JsValue) (domain : String)
    (tokenOpt : Option String) (resp : HttpResponse)
    (denv : DateStringEnv) : RetryAttempt :=
  match tokenOpt with
  | none => .thrown "TypeError: cannot read startsWith of undefined"
  | some token =>
      match revokeAccess0 params domain token denv with
      | .error m => .thrown m
      | .ok _ =>
          if resp.ok then
            match resp.jsonBody with
            | none => .thrown jsonParseThrowMessage
            | some d => .succeeded d
          else .notOk

/-- Assemble the recovery result object from a retry's response data. -/
def mkRecoveryResult (params : JsValue) (responseData : JsValue)
    (requestedAt method : String) : RecoveryResult :=
  { requestId := jsProp responseData "id"
    identityId := jsProp params "identityId"
    itemType := jsProp params "itemType"
    itemId := jsProp params "itemId"
    status :=
      if optTruthy (jsProp responseData "status") then
        (jsProp responseData "status").getD .null
      else .str "PENDING"
    requestedAt := requestedAt
    recoveryMethod := method }

/-- `error(params, context)` of the older variant: on status 429 (or a
message containing `429` / `rate limit`), sleep the rate-limit backoff
and retry once; if that retry is not ok — or directly on status
502/503/504 — sleep the service-error backoff and retry once; any other
error re-throws as unrecoverable, naming the identity.  Each retry
consumes the next entry of `resps`. -/
def errorHandler (params : JsValue) (err : JsError) (ctx : ExecContext)
    (resps : List HttpResponse) (requestedAt : String)
    (denv : DateStringEnv) : HandlerOutcome :=
  let identityId := jsProp params "identityId"
  let domain := jsDisplayOpt (jsProp params "sailpointDomain")
  let tokenOpt := lookupStr ctx.secrets "SAILPOINT_API_TOKEN"
  let envOr : String → String → String := fun key dflt =>
    match lookupStr ctx.environment key with
    | some v => if v ≠ "" then v else dflt
    | none => dflt
  let rateLimitBackoffMs := parseIntJs (envOr "RATE_LIMIT_BACKOFF_MS" "30000")
  let serviceErrorBackoffMs := parseIntJs (envOr "SERVICE_ERROR_BACKOFF_MS" "10000")
  let unrecoverable : String :=
    "Unrecoverable error creating revoke access request for identity "
      ++ jsDisplayOpt identityId ++ ": " ++ err.message
  let is429 := err.statusCode == some 429 || containsSub err.message "429"
    || containsSub err.message "rate limit"
  let isServiceErr := err.statusCode == some 502 || err.statusCode == some 503
    || err.statusCode == some 504
  let serviceStage : List (Option Int) → List RetryKind → Nat → HandlerOutcome :=
    fun sleeps0 retries0 respIdx =>
      if isServiceErr then
        let sleeps := sleeps0 ++ [serviceErrorBackoffMs]
        let retries := retries0 ++ [.service]
        match retryAttempt params domain tokenOpt (resps.getD respIdx default) denv with
        | .thrown m => ⟨.error m, sleeps, retries⟩
        | .succeeded d =>
            ⟨.ok (mkRecoveryResult params d requestedAt "service_retry"), sleeps, retries⟩
        | .notOk => ⟨.error unrecoverable, sleeps, retries⟩
      else ⟨.error unrecoverable, sleeps0, retries0⟩
  if is429 then
    match retryAttempt params domain tokenOpt (resps.getD 0 default) denv with
    | .thrown m => ⟨.error m, [rateLimitBackoffMs], [.rateLimit]⟩
    | .succeeded d =>
        ⟨.ok (mkRecoveryResult params d requestedAt "rate_limit_retry"),
          [rateLimitBackoffMs], [.rateLimit]⟩
    | .notOk => serviceStage [rateLimitBackoffMs] [.rateLimit] 1
  else serviceStage [] [] 0

/-! ## Scanner lemmas

The scanners are fuel-indexed (so that they compute by kernel reduction);
the fuel-invariance lemmas below recover the natural recursion
equations. -/

theorem scanTemplatesF_fuel (repl : String → String × List String) :
    ∀ (f : Nat) (l : List Char), l.length < f →
      scanTemplatesF repl f l = scanTemplatesF repl (l.length + 1) l := by
  intro f
  induction f using Nat.strong_induction_on with
  | _ f ih =>
      intro l hl
      match f, l with
      | f + 1, [] => rfl
      | f + 1, c :: rest =>
          have hrest : rest.length < f := by
            simp only [List.length_cons] at hl
            omega
          have hb1 : ∀ (x : List Char), x.length ≤ rest.length →
              scanTemplatesF repl f x = scanTemplatesF repl (x.length + 1) x :=
            fun x hx => ih f (by omega) x (by omega)
          have hb2 : ∀ (x : List Char), x.length ≤ rest.length →
              scanTemplatesF repl (rest.length + 1) x
                = scanTemplatesF repl (x.length + 1) x :=
            fun x hx => ih (rest.length + 1) (by omega) x (by omega)
          have hsp := spanP_snd_length_le (fun x => x != '\x7d') rest.tail
          have htl : rest.tail.length ≤ rest.length := by
            cases rest <;> simp
          simp only [scanTemplatesF, List.length_cons]
          by_cases hc : (c = '\x7b' && rest.head? == some '$') = true
          · rw [if_pos hc, if_pos hc]
            by_cases hs : (spanP (fun x => x != '\x7d') rest.tail).1 ≠ [] ∧
                (spanP (fun x => x != '\x7d') rest.tail).2 ≠ []
            · rw [if_pos hs, if_pos hs]
              have hlen : (spanP (fun x => x != '\x7d') rest.tail).2.tail.length
                  ≤ rest.length := by
                have : (spanP (fun x => x != '\x7d') rest.tail).2.tail.length
                    ≤ (spanP (fun x => x != '\x7d') rest.tail).2.length := by
                  cases hsp2 : (spanP (fun x => x != '\x7d') rest.tail).2 <;> simp
                omega
              rw [hb1 _ hlen, hb2 _ hlen]
            · rw [if_neg hs, if_neg hs, hb1 rest (le_refl _), hb2 rest (le_refl _)]
          · rw [if_neg hc, if_neg hc, hb1 rest (le_refl _), hb2 rest (le_refl _)]

theorem scanTemplates_cons (repl : String → String × List String)
    (c : Char) (rest : List Char) :
    scanTemplates repl (c :: rest) =
      (if c = '\x7b' && rest.head? == some '$' then
        let sp := spanP (fun x => x != '\x7d') rest.tail
        if sp.1 ≠ [] ∧ sp.2 ≠ [] then
          let r := repl (String.mk ('$' :: sp.1))
          let r2 := scanTemplates repl sp.2.tail
          (r.1.data ++ r2.1, r.2 ++ r2.2)
        else
          let r2 := scanTemplates repl rest
          (c :: r2.1, r2.2)
      else
        let r2 := scanTemplates repl rest
        (c :: r2.1, r2.2)) := by
  have hsp := spanP_snd_length_le (fun x => x != '\x7d') rest.tail
  have htl : rest.tail.length ≤ rest.length := by
    cases rest <;> simp
  show scanTemplatesF repl (rest.length + 1 + 1) (c :: rest) = _
  simp only [scanTemplatesF, scanTemplates]
  by_cases hc : (c = '\x7b' && rest.head? == some '$') = true
  · rw [if_pos hc, if_pos hc]
    by_cases hs : (spanP (fun x => x != '\x7d') rest.tail).1 ≠ [] ∧
        (spanP (fun x => x != '\x7d') rest.tail).2 ≠ []
    · rw [if_pos hs, if_pos hs]
      have hlen : (spanP (fun x => x != '\x7d') rest.tail).2.tail.length
          ≤ rest.length := by
        have : (spanP (fun x => x != '\x7d') rest.tail).2.tail.length
            ≤ (spanP (fun x => x != '\x7d') rest.tail).2.length := by
          cases hsp2 : (spanP (fun x => x != '\x7d') rest.tail).2 <;> simp
        omega
      rw [scanTemplatesF_fuel repl (rest.length + 1) _ (by omega)]
    · rw [if_neg hs, if_neg hs,
        scanTemplatesF_fuel repl (rest.length + 1) rest (by omega)]
  · rw [if_neg hc, if_neg hc,
      scanTemplatesF_fuel repl (rest.length + 1) rest (by omega)]

theorem scanTemplates_cons_ne (repl : String → String × List String) (c : Char)
    (l : List Char) (hc : c ≠ '\x7b') :
    scanTemplates repl (c :: l) =
      (c :: (scanTemplates repl l).1, (scanTemplates repl l).2) := by
  rw [scanTemplates_cons]
  simp [hc]

theorem scanTemplates_no_brace (repl : String → String × List String)
    (l : List Char) (hl : '\x7b' ∉ l) :
    scanTemplates repl l = (l, []) := by
  induction l with
  | nil => rfl
  | cons c rest ih =>
      have hc : c ≠ '\x7b' := fun h => hl (h ▸ List.mem_cons_self c rest)
      rw [scanTemplates_cons_ne repl c rest hc,
        ih (fun h => hl (List.mem_cons_of_mem c h))]

theorem scanTemplates_append_no_brace (repl : String → String × List String)
    (l1 l2 : List Char) (hl : '\x7b' ∉ l1) :
    scanTemplates repl (l1 ++ l2) =
      (l1 ++ (scanTemplates repl l2).1, (scanTemplates repl l2).2) := by
  induction l1 with
  | nil => simp
  | cons c rest ih =>
      have hc : c ≠ '\x7b' := fun h => hl (h ▸ List.mem_cons_self c rest)
      rw [List.cons_append, scanTemplates_cons_ne repl c _ hc,
        ih (fun h => hl (List.mem_cons_of_mem c h))]
      simp

theorem scanTemplates_token (repl : String → String × List String)
    (body suf : List Char) (hne : body ≠ [])
    (hb : ∀ x ∈ body, x ≠ '\x7d') :
    scanTemplates repl ('\x7b' :: '$' :: (body ++ '\x7d' :: suf)) =
      ((repl (String.mk ('$' :: body))).1.data ++ (scanTemplates repl suf).1,
       (repl (String.mk ('$' :: body))).2 ++ (scanTemplates repl suf).2) := by
  have hspan : spanP (fun x => x != '\x7d') (body ++ '\x7d' :: suf)
      = (body, '\x7d' :: suf) := by
    apply spanP_eq_of_all
    · intro x hx
      simp [hb x hx]
    · simp
  rw [scanTemplates_cons]
  simp [hspan, hne]

theorem string_eq_of_data (s t : String) (h : s.data = t.data) : s = t := by
  cases s
  cases t
  exact congrArg String.mk h

theorem resolveTemplateString_no_brace (s : String) (ctx : JsValue) (b : Bool)
    (h : '\x7b' ∉ s.data) :
    resolveTemplateString s ctx b = (s, []) := by
  simp [resolveTemplateString, scanTemplates_no_brace _ _ h]

/-- A string whose first character is not `{` never passes the
exact-template test. -/
theorem exactTemplateTest_cons_ne (c : Char) (l : List Char) (hc : c ≠ '\x7b') :
    exactTemplateTest (String.mk (c :: l)) = false := by
  rw [exactTemplateTest.eq_def]
  simp [hc]

/-- A lone well-formed token passes the exact-template test. -/
theorem exactTemplateTest_token (body : List Char) (hne : body ≠ [])
    (hb : ∀ x ∈ body, x ≠ '\x7d') :
    exactTemplateTest (String.mk ('\x7b' :: '$' :: (body ++ ['\x7d']))) = true := by
  rw [exactTemplateTest.eq_def]
  simp [List.getLast?_concat, List.dropLast_concat, hne]
  intro x hx
  exact hb x hx

/-- A token with a non-empty tail after its closing brace fails the
exact-template test. -/
theorem exactTemplateTest_token_suffix (body suf : List Char) (hsuf : suf ≠ []) :
    exactTemplateTest (String.mk ('\x7b' :: '$' :: (body ++ '\x7d' :: suf))) = false := by
  rw [exactTemplateTest.eq_def]
  simp only [List.dropLast_append_cons]
  obtain ⟨a, suf', rfl⟩ : ∃ a suf', suf = a :: suf' := by
    cases suf with
    | nil => exact absurd rfl hsuf
    | cons a s => exact ⟨a, s, rfl⟩
  simp only [Bool.and_eq_false_imp]
  intro _
  rw [List.all_eq_false]
  refine ⟨'\x7d', ?_, by simp⟩
  have hdl : ('\x7d' :: a :: suf').dropLast = '\x7d' :: (a :: suf').dropLast := rfl
  rw [hdl]
  simp

theorem data_eq_nil_iff (s : String) : s.data = [] ↔ s = "" := by
  constructor
  · intro h
    exact string_eq_of_data s "" h
  · intro h
    rw [h]

theorem resolveTemplateString_token_split
    (pre p suf : String) (ctx : JsValue) (omitOpt : Bool)
    (hpre : '\x7b' ∉ pre.data) (hsuf : '\x7b' ∉ suf.data)
    (hp : p.data ≠ []) (hpb : ∀ x ∈ p.data, x ≠ '\x7d') :
    resolveTemplateString (pre ++ "\x7b$" ++ p ++ "\x7d" ++ suf) ctx omitOpt =
      (pre ++ (templateRepl ctx (decide (pre = "" ∧ suf = "")) omitOpt ("$" ++ p)).1 ++ suf,
       (templateRepl ctx (decide (pre = "" ∧ suf = "")) omitOpt ("$" ++ p)).2) := by
  have hdata : (pre ++ "\x7b$" ++ p ++ "\x7d" ++ suf).data
      = pre.data ++ '\x7b' :: '$' :: (p.data ++ '\x7d' :: suf.data) := by
    simp [String.data_append]
  have hfull : (pre ++ "\x7b$" ++ p ++ "\x7d" ++ suf)
      = String.mk (pre.data ++ '\x7b' :: '$' :: (p.data ++ '\x7d' :: suf.data)) :=
    string_eq_of_data _ _ hdata
  have hpath : String.mk ('$' :: p.data) = "$" ++ p :=
    string_eq_of_data _ _ (by simp [String.data_append])
  have hex : exactTemplateTest (pre ++ "\x7b$" ++ p ++ "\x7d" ++ suf)
      = decide (pre = "" ∧ suf = "") := by
    rw [hfull]
    cases hpd : pre.data with
    | nil =>
        have hpre0 : pre = "" := (data_eq_nil_iff pre).mp hpd
        cases hsd : suf.data with
        | nil =>
            have hsuf0 : suf = "" := (data_eq_nil_iff suf).mp hsd
            simp only [List.nil_append]
            rw [show p.data ++ '\x7d' :: ([] : List Char) = p.data ++ ['\x7d'] from rfl,
              exactTemplateTest_token p.data hp hpb, hpre0, hsuf0]
            decide
        | cons a l =>
            rw [List.nil_append, exactTemplateTest_token_suffix p.data (a :: l) (by simp)]
            have : suf ≠ "" := by
              intro h
              rw [h] at hsd
              exact absurd hsd.symm (by simp)
            simp [this]
    | cons c l =>
        have hc : c ≠ '\x7b' := by
          intro h
          exact hpre (by rw [hpd, h]; exact List.mem_cons_self _ _)
        rw [List.cons_append, exactTemplateTest_cons_ne c _ hc]
        have : pre ≠ "" := by
          intro h
          rw [h] at hpd
          exact absurd hpd.symm (by simp)
        simp [this]
  have hdefn : ∀ (s : String),
      resolveTemplateString s ctx omitOpt =
        (String.mk (scanTemplates (templateRepl ctx (exactTemplateTest s) omitOpt) s.data).1,
         (scanTemplates (templateRepl ctx (exactTemplateTest s) omitOpt) s.data).2) :=
    fun s => rfl
  rw [hdefn, hex, hdata,
    scanTemplates_append_no_brace _ _ _ hpre,
    scanTemplates_token _ _ _ hp hpb,
    scanTemplates_no_brace _ _ hsuf,
    hpath]
  rw [Prod.mk.injEq]
  constructor
  · exact string_eq_of_data _ _ (by simp [String.data_append])
  · simp

/-! ## Claim theorems -/

/-- C3: for a template token `{$path}` inside a string being resolved:
an unresolvable (`undefined`/`null`) path records a field-not-found error
and substitutes the `{No Value}` placeholder, except that an exact
template with the omit option substitutes the empty string; a path
resolving to an empty string records a field-is-empty error and
substitutes the empty string; otherwise the value's string form is
substituted with no error, where strings pass through unchanged and
non-string values are JSON-encoded. -/
theorem claim_C3_token_policy
    (pre p suf : String) (ctx : JsValue) (omitOpt : Bool)
    (hpre : '\x7b' ∉ pre.data) (hsuf : '\x7b' ∉ suf.data)
    (hp : p.data ≠ []) (hpb : ∀ x ∈ p.data, x ≠ '\x7d') :
    ((extractJSONPathValue ctx ("$" ++ p)).2 = false →
      (resolveTemplateString (pre ++ "\x7b$" ++ p ++ "\x7d" ++ suf) ctx omitOpt).2
          = ["failed to extract field \x27" ++ ("$" ++ p) ++ "\x27: field not found"] ∧
        (resolveTemplateString (pre ++ "\x7b$" ++ p ++ "\x7d" ++ suf) ctx omitOpt).1
          = (if pre = "" ∧ suf = "" ∧ omitOpt = true then ""
             else pre ++ NO_VALUE_PLACEHOLDER ++ suf))
    ∧ ((extractJSONPathValue ctx ("$" ++ p)).2 = true →
       valueToString (extractJSONPathValue ctx ("$" ++ p)).1 = "" →
      (resolveTemplateString (pre ++ "\x7b$" ++ p ++ "\x7d" ++ suf) ctx omitOpt).2
          = ["failed to extract field \x27" ++ ("$" ++ p) ++ "\x27: field is empty"] ∧
        (resolveTemplateString (pre ++ "\x7b$" ++ p ++ "\x7d" ++ suf) ctx omitOpt).1
          = pre ++ suf)
    ∧ ((extractJSONPathValue ctx ("$" ++ p)).2 = true →
       valueToString (extractJSONPathValue ctx ("$" ++ p)).1 ≠ "" →
      (resolveTemplateString (pre ++ "\x7b$" ++ p ++ "\x7d" ++ suf) ctx omitOpt).2 = [] ∧
        (resolveTemplateString (pre ++ "\x7b$" ++ p ++ "\x7d" ++ suf) ctx omitOpt).1
          = pre ++ valueToString (extractJSONPathValue ctx ("$" ++ p)).1 ++ suf)
    ∧ (∀ s : String, (extractJSONPathValue ctx ("$" ++ p)).1 = some (JsValue.str s) →
        valueToString (extractJSONPathValue ctx ("$" ++ p)).1 = s)
    ∧ (∀ v : JsValue, (extractJSONPathValue ctx ("$" ++ p)).1 = some v →
        (∀ s : String, v ≠ JsValue.str s) → v ≠ JsValue.null →
        valueToString (extractJSONPathValue ctx ("$" ++ p)).1 = jsonStringify v) := by
  have hsplit := resolveTemplateString_token_split pre p suf ctx omitOpt hpre hsuf hp hpb
  rw [hsplit]
  refine ⟨?_, ?_, ?_, ?_, ?_⟩
  · intro hnf
    by_cases hex : pre = "" ∧ suf = ""
    · rcases hex with ⟨h1, h2⟩
      subst h1
      subst h2
      cases omitOpt <;> simp [templateRepl, hnf, NO_VALUE_PLACEHOLDER]
    · have hcond : ¬(pre = "" ∧ suf = "" ∧ omitOpt = true) := by
        intro hc
        exact hex ⟨hc.1, hc.2.1⟩
      simp [templateRepl, hnf, hex, hcond]
  · intro hf he
    simp [templateRepl, hf, he]
  · intro hf he
    simp [templateRepl, hf, he]
  · intro s hs
    rw [hs]
    rfl
  · intro v hv hnstr hnnull
    rw [hv]
    cases v with
    | null => exact absurd rfl hnnull
    | str s => exact absurd rfl (hnstr s)
    | bool b => rfl
    | num n => rfl
    | arr xs => rfl
    | obj es => rfl

/-- Witness for C3 at concrete inputs: a resolvable path substitutes its
value with no error; an unresolvable path records an error and
substitutes the placeholder. -/
theorem claim_C3_token_policy_witness :
    ((resolveTemplateString ("login: " ++ "\x7b$" ++ ".user.email" ++ "\x7d" ++ "!")
        (JsValue.obj [("user", JsValue.obj [("email", JsValue.str "a@b.com")])]) false).2 = [] ∧
      (resolveTemplateString ("login: " ++ "\x7b$" ++ ".user.email" ++ "\x7d" ++ "!")
        (JsValue.obj [("user", JsValue.obj [("email", JsValue.str "a@b.com")])]) false).1
        = "login: " ++ valueToString (extractJSONPathValue
            (JsValue.obj [("user", JsValue.obj [("email", JsValue.str "a@b.com")])])
            ("$" ++ ".user.email")).1 ++ "!") ∧
    ((resolveTemplateString ("" ++ "\x7b$" ++ ".missing" ++ "\x7d" ++ "")
        (JsValue.obj []) false).2
        = ["failed to extract field \x27" ++ ("$" ++ ".missing") ++ "\x27: field not found"] ∧
      (resolveTemplateString ("" ++ "\x7b$" ++ ".missing" ++ "\x7d" ++ "")
        (JsValue.obj []) false).1
        = (if ("" : String) = "" ∧ ("" : String) = "" ∧ false = true then ""
           else "" ++ NO_VALUE_PLACEHOLDER ++ "")) :=
  ⟨(claim_C3_token_policy "login: " ".user.email" "!"
      (JsValue.obj [("user", JsValue.obj [("email", JsValue.str "a@b.com")])]) false
      (by decide) (by decide) (by decide) (by decide)).2.2.1 (by rfl) (by decide),
   (claim_C3_token_policy "" ".missing" ""
      (JsValue.obj []) false
      (by decide) (by decide) (by decide) (by decide)).1 (by rfl)⟩

/-! ## Shape preservation (C4) -/

mutual

/-- Same tree shape: strings map to strings, arrays to equal-length
arrays elementwise, objects to same-keyed objects elementwise, other
primitives to themselves. -/
def sameShape : JsValue → JsValue → Bool
  | .str _, .str _ => true
  | .arr xs, .arr ys => sameShapeList xs ys
  | .obj es, .obj fs => sameShapeEntries es fs
  | .null, .null => true
  | .bool a, .bool b => a == b
  | .num a, .num b => a == b
  | _, _ => false

def sameShapeList : List JsValue → List JsValue → Bool
  | [], [] => true
  | x :: xs, y :: ys => sameShape x y && sameShapeList xs ys
  | _, _ => false

def sameShapeEntries : List (String × JsValue) → List (String × JsValue) → Bool
  | [], [] => true
  | (k, v) :: es, (k2, v2) :: fs => k == k2 && sameShape v v2 && sameShapeEntries es fs
  | _, _ => false

end

mutual

theorem resolveValue_shape (ctx : JsValue) : ∀ (v : JsValue),
    sameShape v (resolveValue ctx false v).1 = true
  | .null => rfl
  | .bool b => by simp [resolveValue, sameShape]
  | .num n => by simp [resolveValue, sameShape]
  | .str s => rfl
  | .arr xs => by
      simp only [resolveValue, sameShape, Bool.false_and, if_false]
      exact resolveValueList_shape ctx xs
  | .obj es => by
      simp only [resolveValue, sameShape]
      exact resolveValueEntries_shape ctx es

theorem resolveValueList_shape (ctx : JsValue) : ∀ (xs : List JsValue),
    sameShapeList xs (resolveValueList ctx false xs).1 = true
  | [] => rfl
  | x :: xs => by
      simp only [resolveValueList, sameShapeList, Bool.and_eq_true]
      exact ⟨resolveValue_shape ctx x, resolveValueList_shape ctx xs⟩

theorem resolveValueEntries_shape (ctx : JsValue) :
    ∀ (es : List (String × JsValue)),
      sameShapeEntries es (resolveValueEntries ctx false es).1 = true
  | [] => rfl
  | (k, v) :: es => by
      simp only [resolveValueEntries, Bool.false_and, if_false, sameShapeEntries,
        Bool.and_eq_true]
      exact ⟨⟨by simp, resolveValue_shape ctx v⟩, resolveValueEntries_shape ctx es⟩

end

/-- C4 counterexample: the claim says unsupported JSONPath syntax
(including recursive descent) is treated as a literal path segment that
simply fails to resolve; but `$..x` resolves successfully (the empty
segment produced by `..` is filtered out, so it behaves like `$.x`):
against the context `{x: "v"}` the extraction finds `"v"`. -/
theorem claim_C4_counterexample :
    extractJSONPathValue (JsValue.obj [("x", JsValue.str "v")]) "$..x"
      = (some (JsValue.str "v"), true) := rfl

/-- C4 (amended): `resolveJSONPathTemplates` is total and, with default
options, preserves the input shape while accumulating errors; wildcard,
filter and slice syntax are treated as literal text whose segments fail
to resolve (no parse error); recursive descent `$..x` instead collapses
its empty segment and resolves exactly like `$.x`. -/
theorem claim_C4_fail_soft
    (v jobContext : JsValue) (d : JsDate) (u : String) :
    sameShape v (resolveJSONPathTemplates v jobContext d u {}).1 = true
    ∧ (∀ es : List (String × JsValue), lookupEntry es "items[*]" = none →
        extractJSONPathValue (JsValue.obj es) "$.items[*]" = (none, false))
    ∧ extractJSONPathValue
        (JsValue.obj [("items", JsValue.arr [JsValue.obj [("id", JsValue.num 1)]])])
        "$.items[?(@.id==1)]" = (none, false)
    ∧ extractJSONPathValue
        (JsValue.obj [("items", JsValue.arr [JsValue.obj [("id", JsValue.num 1)]])])
        "$.items[0:2]" = (none, false)
    ∧ (∀ ctx : JsValue, extractJSONPathValue ctx "$..x"
        = extractJSONPathValue ctx "$.x") := by
  refine ⟨resolveValue_shape _ v, ?_, rfl, rfl, ?_⟩
  · intro es hes
    have hseg : pathSegments "items[*]" = ["items[*]"] := by decide
    have hget : get (JsValue.obj es) "items[*]" = lookupEntry es "items[*]" := by
      show getSegs (some (JsValue.obj es)) (pathSegments "items[*]")
        = lookupEntry es "items[*]"
      rw [hseg]
      rfl
    have hstep : extractJSONPathValue (JsValue.obj es) "$.items[*]" =
        (match get (JsValue.obj es) "items[*]" with
         | none => (none, false)
         | some JsValue.null => (none, false)
         | some v => (some v, true)) := rfl
    rw [hstep, hget, hes]
  · intro ctx
    have h1 : pathSegments ".x" = ["x"] := by decide
    have h2 : pathSegments "x" = ["x"] := by decide
    have g1 : get ctx ".x" = getSegs (some ctx) ["x"] := by
      show getSegs (some ctx) (pathSegments ".x") = getSegs (some ctx) ["x"]
      rw [h1]
    have g2 : get ctx "x" = getSegs (some ctx) ["x"] := by
      show getSegs (some ctx) (pathSegments "x") = getSegs (some ctx) ["x"]
      rw [h2]
    have e1 : extractJSONPathValue ctx "$..x" =
        (match get ctx ".x" with
         | none => (none, false)
         | some JsValue.null => (none, false)
         | some v => (some v, true)) := rfl
    have e2 : extractJSONPathValue ctx "$.x" =
        (match get ctx "x" with
         | none => (none, false)
         | some JsValue.null => (none, false)
         | some v => (some v, true)) := rfl
    rw [e1, e2, g1, g2]

/-- Witness for C4 at a concrete input: shape preservation on a mixed
tree, and the wildcard conjunct at a concrete context. -/
theorem claim_C4_fail_soft_witness :
    sameShape (JsValue.obj [("a", JsValue.str "\x7b$.items[*]\x7d"), ("b", JsValue.arr [JsValue.num 7])])
      (resolveJSONPathTemplates
        (JsValue.obj [("a", JsValue.str "\x7b$.items[*]\x7d"), ("b", JsValue.arr [JsValue.num 7])])
        (JsValue.obj [("items", JsValue.arr [JsValue.str "i"])])
        ⟨2025, 1, 1, 0, 0, 0, 0⟩ "u" {}).1 = true
    ∧ extractJSONPathValue (JsValue.obj [("items", JsValue.arr [JsValue.str "i"])])
        "$.items[*]" = (none, false) :=
  ⟨(claim_C4_fail_soft
      (JsValue.obj [("a", JsValue.str "\x7b$.items[*]\x7d"), ("b", JsValue.arr [JsValue.num 7])])
      (JsValue.obj [("items", JsValue.arr [JsValue.str "i"])])
      ⟨2025, 1, 1, 0, 0, 0, 0⟩ "u").1,
   (claim_C4_fail_soft
      (JsValue.obj [("a", JsValue.str "\x7b$.items[*]\x7d"), ("b", JsValue.arr [JsValue.num 7])])
      (JsValue.obj [("items", JsValue.arr [JsValue.str "i"])])
      ⟨2025, 1, 1, 0, 0, 0, 0⟩ "u").2.1 [("items", JsValue.arr [JsValue.str "i"])] rfl⟩

/-! ## Object-literal lemmas (for the SGNL namespace injection) -/

theorem lookupEntry_eq_none (es : List (String × JsValue)) (k : String)
    (h : ∀ e ∈ es, e.1 ≠ k) : lookupEntry es k = none := by
  induction es with
  | nil => rfl
  | cons e rest ih =>
      obtain ⟨k1, v1⟩ := e
      have h1 : k1 ≠ k := h (k1, v1) (by simp)
      simp only [lookupEntry, if_neg h1]
      exact ih (fun e he => h e (by simp [he]))

theorem lookupEntry_setEntry_self (es : List (String × JsValue)) (k : String)
    (v : JsValue) : lookupEntry (setEntry es k v) k = some v := by
  induction es with
  | nil => simp [setEntry, lookupEntry]
  | cons e rest ih =>
      obtain ⟨k1, v1⟩ := e
      by_cases h1 : k1 = k
      · simp [setEntry, h1, lookupEntry]
      · simp only [setEntry, if_neg h1, lookupEntry, if_neg h1]
        exact ih

theorem lookupEntry_setEntry_ne (es : List (String × JsValue)) (k k' : String)
    (v : JsValue) (h : k' ≠ k) :
    lookupEntry (setEntry es k v) k' = lookupEntry es k' := by
  induction es with
  | nil =>
      simp only [setEntry, lookupEntry]
      rw [if_neg (fun he => h he.symm)]
  | cons e rest ih =>
      obtain ⟨k1, v1⟩ := e
      by_cases h1 : k1 = k
      · have hk : ¬k1 = k' := fun he => h (he.symm.trans h1)
        simp only [setEntry, if_pos h1, lookupEntry, if_neg hk]
      · simp only [setEntry, if_neg h1, lookupEntry]
        by_cases h2 : k1 = k'
        · simp [h2]
        · simp only [if_neg h2]
          exact ih

theorem lookup_mergeEntries (add : List (String × JsValue))
    (hnd : (add.map Prod.fst).Nodup) :
    ∀ (base : List (String × JsValue)) (k : String),
    lookupEntry (mergeEntries base add) k =
      match lookupEntry add k with
      | some v => some v
      | none => lookupEntry base k := by
  induction add with
  | nil => intro base k; rfl
  | cons e rest ih =>
      intro base k
      obtain ⟨k1, v1⟩ := e
      simp only [List.map_cons, List.nodup_cons] at hnd
      have hstep : mergeEntries base ((k1, v1) :: rest)
          = mergeEntries (setEntry base k1 v1) rest := rfl
      rw [hstep, ih hnd.2]
      by_cases hk : k1 = k
      · subst hk
        have hrest : lookupEntry rest k1 = none :=
          lookupEntry_eq_none rest k1 (fun e he hk1 => hnd.1 (hk1 ▸ List.mem_map_of_mem Prod.fst he))
        rw [hrest]
        simp [lookupEntry, lookupEntry_setEntry_self]
      · simp only [lookupEntry, if_neg hk]
        cases hrl : lookupEntry rest k with
        | some v => rfl
        | none => simp [lookupEntry_setEntry_ne base k1 k v1 (fun h => hk h.symm)]

/-! ## Non-emptiness of the injected timestamp -/

theorem string_append_ne_empty_right (a b : String) (hb : b.data ≠ []) :
    a ++ b ≠ "" := by
  intro h
  have hd := congrArg String.data h
  rw [String.data_append] at hd
  exact hb (List.append_eq_nil.mp hd).2

theorem jsToISOString_ne_empty (d : JsDate) : jsToISOString d ≠ "" := by
  unfold jsToISOString
  exact string_append_ne_empty_right _ _ (by decide)

theorem formatRFC3339_ne_empty (d : JsDate) : formatRFC3339 d ≠ "" := by
  intro h
  simp only [formatRFC3339] at h
  split at h
  · have hd := congrArg String.data h
    simp at hd
  · exact jsToISOString_ne_empty d h


/-! ## SGNL namespace injection: C5 and C9 -/

theorem injectSGNL_no_sgnl (l : List (String × JsValue)) (d : JsDate) (u : String)
    (hsgnl : lookupEntry l "sgnl" = none) :
    injectSGNLNamespace (.obj l) d u =
      .obj (setEntry l "sgnl" (.obj
        [("time", .obj [("now", .str (formatRFC3339 d))]),
         ("random", .obj [("uuid", .str u)])])) := by
  simp only [injectSGNLNamespace, jsProp, hsgnl, optChain, spreadEntries, mergeEntries,
    setEntry, List.foldl]
  rw [if_neg (by decide)]

theorem get_injected_time (l : List (String × JsValue)) (d : JsDate) (u : String)
    (hsgnl : lookupEntry l "sgnl" = none) :
    get (injectSGNLNamespace (.obj l) d u) "sgnl.time.now"
      = some (.str (formatRFC3339 d)) := by
  rw [injectSGNL_no_sgnl l d u hsgnl]
  have hseg : pathSegments "sgnl.time.now" = ["sgnl", "time", "now"] := by decide
  unfold get
  rw [if_neg (by decide : ¬("sgnl.time.now" = "")), hseg]
  simp [getSegs, indexStep, lookupEntry_setEntry_self, lookupEntry]

theorem get_injected_uuid (l : List (String × JsValue)) (d : JsDate) (u : String)
    (hsgnl : lookupEntry l "sgnl" = none) :
    get (injectSGNLNamespace (.obj l) d u) "sgnl.random.uuid"
      = some (.str u) := by
  rw [injectSGNL_no_sgnl l d u hsgnl]
  have hseg : pathSegments "sgnl.random.uuid" = ["sgnl", "random", "uuid"] := by decide
  unfold get
  rw [if_neg (by decide : ¬("sgnl.random.uuid" = "")), hseg]
  simp [getSegs, indexStep, lookupEntry_setEntry_self, lookupEntry]

end SailPointRevoke

namespace SailPointRevoke

theorem resolveTok_time (l : List (String × JsValue)) (d : JsDate) (u : String)
    (hsgnl : lookupEntry l "sgnl" = none) :
    resolveTemplateString "\x7b$.sgnl.time.now\x7d"
      (injectSGNLNamespace (.obj l) d u) false = (formatRFC3339 d, []) := by
  have heq : ("\x7b$.sgnl.time.now\x7d" : String)
      = "" ++ "\x7b$" ++ ".sgnl.time.now" ++ "\x7d" ++ "" := rfl
  rw [heq, resolveTemplateString_token_split "" ".sgnl.time.now" ""
    (injectSGNLNamespace (.obj l) d u) false (by decide) (by decide) (by decide) (by decide)]
  have hstep : extractJSONPathValue (injectSGNLNamespace (.obj l) d u)
      ("$" ++ ".sgnl.time.now") =
      (match get (injectSGNLNamespace (.obj l) d u) "sgnl.time.now" with
       | none => (none, false)
       | some JsValue.null => (none, false)
       | some v => (some v, true)) := rfl
  have hex : extractJSONPathValue (injectSGNLNamespace (.obj l) d u)
      ("$" ++ ".sgnl.time.now") = (some (.str (formatRFC3339 d)), true) := by
    rw [hstep, get_injected_time l d u hsgnl]
  simp only [templateRepl, hex, valueToString]
  rw [if_neg (by simp), if_neg (formatRFC3339_ne_empty d), Prod.mk.injEq]
  exact ⟨string_eq_of_data _ _ (by simp [String.data_append]), rfl⟩

theorem resolveTok_uuid (l : List (String × JsValue)) (d : JsDate) (u : String)
    (hsgnl : lookupEntry l "sgnl" = none) (hu : u ≠ "") :
    resolveTemplateString "\x7b$.sgnl.random.uuid\x7d"
      (injectSGNLNamespace (.obj l) d u) false = (u, []) := by
  have heq : ("\x7b$.sgnl.random.uuid\x7d" : String)
      = "" ++ "\x7b$" ++ ".sgnl.random.uuid" ++ "\x7d" ++ "" := rfl
  rw [heq, resolveTemplateString_token_split "" ".sgnl.random.uuid" ""
    (injectSGNLNamespace (.obj l) d u) false (by decide) (by decide) (by decide) (by decide)]
  have hstep : extractJSONPathValue (injectSGNLNamespace (.obj l) d u)
      ("$" ++ ".sgnl.random.uuid") =
      (match get (injectSGNLNamespace (.obj l) d u) "sgnl.random.uuid" with
       | none => (none, false)
       | some JsValue.null => (none, false)
       | some v => (some v, true)) := rfl
  have hex : extractJSONPathValue (injectSGNLNamespace (.obj l) d u)
      ("$" ++ ".sgnl.random.uuid") = (some (.str u), true) := by
    rw [hstep, get_injected_uuid l d u hsgnl]
  simp only [templateRepl, hex, valueToString]
  rw [if_neg (by simp), if_neg hu, Prod.mk.injEq]
  exact ⟨string_eq_of_data _ _ (by simp [String.data_append]), rfl⟩

/-- C5: the runtime values `sgnl.time.now` (RFC3339-rendered observed
date) and `sgnl.random.uuid` (the fresh identifier) are injected into the
context once per `resolveJSONPathTemplates` call, so every occurrence of
the corresponding template anywhere in the input — here two occurrences
of each, in an array element and inside a nested object — resolves to
the same string. -/
theorem claim_C5_sgnl_values_once (l : List (String × JsValue)) (d : JsDate) (u : String)
    (hsgnl : lookupEntry l "sgnl" = none) (hu : u ≠ "") :
    resolveJSONPathTemplates
      (.arr [.str "\x7b$.sgnl.time.now\x7d",
             .obj [("t", .str "\x7b$.sgnl.time.now\x7d")],
             .str "\x7b$.sgnl.random.uuid\x7d",
             .obj [("r", .str "\x7b$.sgnl.random.uuid\x7d")]])
      (.obj l) d u {} =
    (.arr [.str (formatRFC3339 d),
           .obj [("t", .str (formatRFC3339 d))],
           .str u,
           .obj [("r", .str u)]], []) := by
  have ht := resolveTok_time l d u hsgnl
  have hun := resolveTok_uuid l d u hsgnl hu
  have hdef : ∀ v : JsValue, resolveJSONPathTemplates v (.obj l) d u {}
      = resolveValue (injectSGNLNamespace (.obj l) d u) false v := fun v => rfl
  rw [hdef]
  have harr : ∀ (C : JsValue) (xs : List JsValue), resolveValue C false (.arr xs)
      = (.arr (resolveValueList C false xs).1, (resolveValueList C false xs).2) :=
    fun C xs => by simp [resolveValue]
  have hconsL : ∀ (C : JsValue) (x : JsValue) (xs : List JsValue),
      resolveValueList C false (x :: xs)
      = ((resolveValue C false x).1 :: (resolveValueList C false xs).1,
         (resolveValue C false x).2 ++ (resolveValueList C false xs).2) :=
    fun C x xs => by simp [resolveValueList]
  have hstr : ∀ (C : JsValue) (s : String), resolveValue C false (.str s)
      = (.str (resolveTemplateString s C false).1, (resolveTemplateString s C false).2) :=
    fun C s => by simp [resolveValue]
  have hobj1 : ∀ (C : JsValue) (k : String) (v : JsValue),
      resolveValue C false (.obj [(k, v)])
      = (.obj [(k, (resolveValue C false v).1)], (resolveValue C false v).2) :=
    fun C k v => by simp [resolveValue, resolveValueEntries]
  simp only [harr, hconsL, hstr, hobj1, ht, hun]
  rfl


/-- Witness for C5 at a concrete context, date and UUID. -/
theorem claim_C5_sgnl_values_once_witness :
    resolveJSONPathTemplates
      (.arr [.str "\x7b$.sgnl.time.now\x7d",
             .obj [("t", .str "\x7b$.sgnl.time.now\x7d")],
             .str "\x7b$.sgnl.random.uuid\x7d",
             .obj [("r", .str "\x7b$.sgnl.random.uuid\x7d")]])
      (.obj [("user", .str "u")]) ⟨2025, 12, 4, 17, 30, 0, 123⟩ "uuid-1" {} =
    (.arr [.str (formatRFC3339 ⟨2025, 12, 4, 17, 30, 0, 123⟩),
           .obj [("t", .str (formatRFC3339 ⟨2025, 12, 4, 17, 30, 0, 123⟩))],
           .str "uuid-1",
           .obj [("r", .str "uuid-1")]], []) :=
  claim_C5_sgnl_values_once [("user", .str "u")] ⟨2025, 12, 4, 17, 30, 0, 123⟩
    "uuid-1" rfl (by decide)

/-- C9: when the caller-supplied job context already defines
`sgnl.time.now` or `sgnl.random.uuid`, the injection spreads the existing
entries after the fresh values, so the caller values win and the freshly
computed timestamp/UUID are discarded. -/
theorem claim_C9_caller_override (l sg tm rd : List (String × JsValue)) (w wu : JsValue)
    (d : JsDate) (u : String)
    (hsgnl : lookupEntry l "sgnl" = some (.obj sg))
    (htm : lookupEntry sg "time" = some (.obj tm))
    (hnow : lookupEntry tm "now" = some w)
    (hndtm : (tm.map Prod.fst).Nodup)
    (hrd : lookupEntry sg "random" = some (.obj rd))
    (huu : lookupEntry rd "uuid" = some wu)
    (hndrd : (rd.map Prod.fst).Nodup) :
    get (injectSGNLNamespace (.obj l) d u) "sgnl.time.now" = some w
    ∧ get (injectSGNLNamespace (.obj l) d u) "sgnl.random.uuid" = some wu := by
  have hctx : injectSGNLNamespace (.obj l) d u =
      .obj (setEntry l "sgnl" (.obj (setEntry (setEntry sg "time"
          (.obj (mergeEntries [("now", .str (formatRFC3339 d))] tm)))
        "random" (.obj (mergeEntries [("uuid", .str u)] rd))))) := by
    simp only [injectSGNLNamespace, jsProp, hsgnl, optChain, htm, hrd, spreadEntries]
  have s1 : lookupEntry (setEntry l "sgnl" (.obj (setEntry (setEntry sg "time"
        (.obj (mergeEntries [("now", .str (formatRFC3339 d))] tm)))
      "random" (.obj (mergeEntries [("uuid", .str u)] rd))))) "sgnl"
      = some (.obj (setEntry (setEntry sg "time"
          (.obj (mergeEntries [("now", .str (formatRFC3339 d))] tm)))
        "random" (.obj (mergeEntries [("uuid", .str u)] rd)))) :=
    lookupEntry_setEntry_self _ _ _
  have s2 : lookupEntry (setEntry (setEntry sg "time"
        (.obj (mergeEntries [("now", .str (formatRFC3339 d))] tm)))
      "random" (.obj (mergeEntries [("uuid", .str u)] rd))) "time"
      = some (.obj (mergeEntries [("now", .str (formatRFC3339 d))] tm)) := by
    rw [lookupEntry_setEntry_ne _ _ _ _ (by decide)]
    exact lookupEntry_setEntry_self _ _ _
  have s2r : lookupEntry (setEntry (setEntry sg "time"
        (.obj (mergeEntries [("now", .str (formatRFC3339 d))] tm)))
      "random" (.obj (mergeEntries [("uuid", .str u)] rd))) "random"
      = some (.obj (mergeEntries [("uuid", .str u)] rd)) :=
    lookupEntry_setEntry_self _ _ _
  have s3 : lookupEntry (mergeEntries [("now", .str (formatRFC3339 d))] tm) "now"
      = some w := by
    rw [lookup_mergeEntries tm hndtm, hnow]
  have s3r : lookupEntry (mergeEntries [("uuid", .str u)] rd) "uuid"
      = some wu := by
    rw [lookup_mergeEntries rd hndrd, huu]
  constructor
  · rw [hctx]
    unfold get
    rw [if_neg (by decide : ¬("sgnl.time.now" = "")),
      (by decide : pathSegments "sgnl.time.now" = ["sgnl", "time", "now"])]
    simp [getSegs, indexStep, s1, s2, s3]
  · rw [hctx]
    unfold get
    rw [if_neg (by decide : ¬("sgnl.random.uuid" = "")),
      (by decide : pathSegments "sgnl.random.uuid" = ["sgnl", "random", "uuid"])]
    simp [getSegs, indexStep, s1, s2r, s3r]

/-- Witness for C9: a context carrying its own `sgnl.time.now` and
`sgnl.random.uuid` keeps them through injection. -/
theorem claim_C9_caller_override_witness :
    get (injectSGNLNamespace
        (.obj [("sgnl", .obj [("time", .obj [("now", .str "CALLER")]),
                              ("random", .obj [("uuid", .str "CU")])])])
        ⟨2025, 1, 1, 0, 0, 0, 0⟩ "fresh-uuid") "sgnl.time.now"
      = some (.str "CALLER")
    ∧ get (injectSGNLNamespace
        (.obj [("sgnl", .obj [("time", .obj [("now", .str "CALLER")]),
                              ("random", .obj [("uuid", .str "CU")])])])
        ⟨2025, 1, 1, 0, 0, 0, 0⟩ "fresh-uuid") "sgnl.random.uuid"
      = some (.str "CU") :=
  claim_C9_caller_override
    [("sgnl", .obj [("time", .obj [("now", .str "CALLER")]),
                    ("random", .obj [("uuid", .str "CU")])])]
    [("time", .obj [("now", .str "CALLER")]), ("random", .obj [("uuid", .str "CU")])]
    [("now", .str "CALLER")] [("uuid", .str "CU")]
    (.str "CALLER") (.str "CU") ⟨2025, 1, 1, 0, 0, 0, 0⟩ "fresh-uuid"
    rfl rfl rfl (by decide) rfl rfl (by decide)


/-! ## Authentication probing: C2 -/

theorem strTruthy_getD (o : Option String) (h : strTruthy o = true) :
    o.getD "" ≠ "" := by
  cases o with
  | none => simp [strTruthy] at h
  | some v =>
      simp only [strTruthy, decide_eq_true_eq] at h
      simpa using h

/-- C2: `getAuthorizationHeader` probes exactly four credential sources in
fixed priority order — (1) pre-formatted bearer token, (2) Basic
username/password, (3) pre-obtained OAuth2 access token, (4) OAuth2
client-credentials — throws an explicit error when none is configured,
throws when branch 4 is selected but its token endpoint or client id is
missing, or the token endpoint responds with failure or omits an access
token; and the outbound-call count is 0 in every branch except branch 4,
where it is exactly 1. -/
theorem claim_C2_auth_priority (ctx : ExecContext) (tokenResp : HttpResponse) :
    (strTruthy (lookupStr ctx.secrets "BEARER_AUTH_TOKEN") = true →
      getAuthorizationHeader ctx tokenResp =
        (.ok (if startsWithStr ((lookupStr ctx.secrets "BEARER_AUTH_TOKEN").getD "") "Bearer "
              then (lookupStr ctx.secrets "BEARER_AUTH_TOKEN").getD ""
              else "Bearer " ++ (lookupStr ctx.secrets "BEARER_AUTH_TOKEN").getD ""), 0))
    ∧ (strTruthy (lookupStr ctx.secrets "BEARER_AUTH_TOKEN") = false →
       strTruthy (lookupStr ctx.secrets "BASIC_PASSWORD") = true →
       strTruthy (lookupStr ctx.secrets "BASIC_USERNAME") = true →
      getAuthorizationHeader ctx tokenResp =
        (.ok ("Basic " ++ btoa ((lookupStr ctx.secrets "BASIC_USERNAME").getD ""
              ++ ":" ++ (lookupStr ctx.secrets "BASIC_PASSWORD").getD "")), 0))
    ∧ (strTruthy (lookupStr ctx.secrets "BEARER_AUTH_TOKEN") = false →
       (strTruthy (lookupStr ctx.secrets "BASIC_PASSWORD") = false ∨
        strTruthy (lookupStr ctx.secrets "BASIC_USERNAME") = false) →
       strTruthy (lookupStr ctx.secrets "OAUTH2_AUTHORIZATION_CODE_ACCESS_TOKEN") = true →
      getAuthorizationHeader ctx tokenResp =
        (.ok (if startsWithStr ((lookupStr ctx.secrets "OAUTH2_AUTHORIZATION_CODE_ACCESS_TOKEN").getD "") "Bearer "
              then (lookupStr ctx.secrets "OAUTH2_AUTHORIZATION_CODE_ACCESS_TOKEN").getD ""
              else "Bearer " ++ (lookupStr ctx.secrets "OAUTH2_AUTHORIZATION_CODE_ACCESS_TOKEN").getD ""), 0))
    ∧ (strTruthy (lookupStr ctx.secrets "BEARER_AUTH_TOKEN") = false →
       (strTruthy (lookupStr ctx.secrets "BASIC_PASSWORD") = false ∨
        strTruthy (lookupStr ctx.secrets "BASIC_USERNAME") = false) →
       strTruthy (lookupStr ctx.secrets "OAUTH2_AUTHORIZATION_CODE_ACCESS_TOKEN") = false →
       strTruthy (lookupStr ctx.secrets "OAUTH2_CLIENT_CREDENTIALS_CLIENT_SECRET") = true →
       (strTruthy (lookupStr ctx.environment "OAUTH2_CLIENT_CREDENTIALS_TOKEN_URL") = false ∨
        strTruthy (lookupStr ctx.environment "OAUTH2_CLIENT_CREDENTIALS_CLIENT_ID") = false) →
      getAuthorizationHeader ctx tokenResp =
        (.error "OAuth2 Client Credentials flow requires TOKEN_URL and CLIENT_ID in env", 0))
    ∧ (strTruthy (lookupStr ctx.secrets "BEARER_AUTH_TOKEN") = false →
       (strTruthy (lookupStr ctx.secrets "BASIC_PASSWORD") = false ∨
        strTruthy (lookupStr ctx.secrets "BASIC_USERNAME") = false) →
       strTruthy (lookupStr ctx.secrets "OAUTH2_AUTHORIZATION_CODE_ACCESS_TOKEN") = false →
       strTruthy (lookupStr ctx.secrets "OAUTH2_CLIENT_CREDENTIALS_CLIENT_SECRET") = true →
       strTruthy (lookupStr ctx.environment "OAUTH2_CLIENT_CREDENTIALS_TOKEN_URL") = true →
       strTruthy (lookupStr ctx.environment "OAUTH2_CLIENT_CREDENTIALS_CLIENT_ID") = true →
       (getAuthorizationHeader ctx tokenResp).2 = 1
       ∧ (tokenResp.ok = false → ∃ e, (getAuthorizationHeader ctx tokenResp).1 = .error e)
       ∧ (∀ b, tokenResp.ok = true → tokenResp.jsonBody = some b →
           optTruthy (jsProp b "access_token") = false →
           (getAuthorizationHeader ctx tokenResp).1 = .error "No access_token in OAuth2 response")
       ∧ (∀ b t, tokenResp.ok = true → tokenResp.jsonBody = some b →
           jsProp b "access_token" = some t → jsTruthy t = true →
           (getAuthorizationHeader ctx tokenResp).1 = .ok ("Bearer " ++ jsDisplay t)))
    ∧ (strTruthy (lookupStr ctx.secrets "BEARER_AUTH_TOKEN") = false →
       (strTruthy (lookupStr ctx.secrets "BASIC_PASSWORD") = false ∨
        strTruthy (lookupStr ctx.secrets "BASIC_USERNAME") = false) →
       strTruthy (lookupStr ctx.secrets "OAUTH2_AUTHORIZATION_CODE_ACCESS_TOKEN") = false →
       strTruthy (lookupStr ctx.secrets "OAUTH2_CLIENT_CREDENTIALS_CLIENT_SECRET") = false →
      getAuthorizationHeader ctx tokenResp =
        (.error ("No authentication configured. Provide one of: "
          ++ "BEARER_AUTH_TOKEN, BASIC_USERNAME/BASIC_PASSWORD, "
          ++ "OAUTH2_AUTHORIZATION_CODE_ACCESS_TOKEN, or OAUTH2_CLIENT_CREDENTIALS_*"), 0)) := by
  refine ⟨?_, ?_, ?_, ?_, ?_, ?_⟩
  · intro h1
    simp [getAuthorizationHeader, h1]
  · intro h1 h2 h3
    simp [getAuthorizationHeader, h1, h2, h3]
  · intro h1 h2 h3
    rcases h2 with h2 | h2 <;> simp [getAuthorizationHeader, h1, h2, h3]
  · intro h1 h2 h3 h4 h5
    rcases h2 with h2 | h2 <;> rcases h5 with h5 | h5 <;>
      simp [getAuthorizationHeader, h1, h2, h3, h4, h5]
  · intro h1 h2 h3 h4 h5 h6
    have hu : (lookupStr ctx.environment "OAUTH2_CLIENT_CREDENTIALS_TOKEN_URL").getD "" ≠ "" :=
      strTruthy_getD _ h5
    have hi : (lookupStr ctx.environment "OAUTH2_CLIENT_CREDENTIALS_CLIENT_ID").getD "" ≠ "" :=
      strTruthy_getD _ h6
    have hs : (lookupStr ctx.secrets "OAUTH2_CLIENT_CREDENTIALS_CLIENT_SECRET").getD "" ≠ "" :=
      strTruthy_getD _ h4
    have hbranch : getAuthorizationHeader ctx tokenResp =
        (match getClientCredentialsToken
            ((lookupStr ctx.environment "OAUTH2_CLIENT_CREDENTIALS_TOKEN_URL").getD "")
            ((lookupStr ctx.environment "OAUTH2_CLIENT_CREDENTIALS_CLIENT_ID").getD "")
            ((lookupStr ctx.secrets "OAUTH2_CLIENT_CREDENTIALS_CLIENT_SECRET").getD "")
            tokenResp with
         | .error e => (.error e, 1)
         | .ok tok => (.ok ("Bearer " ++ jsDisplay tok), 1)) := by
      rcases h2 with h2 | h2 <;>
        simp [getAuthorizationHeader, h1, h2, h3, h4, h5, h6]
    have hguard : (((lookupStr ctx.environment "OAUTH2_CLIENT_CREDENTIALS_TOKEN_URL").getD "" = "")
        || ((lookupStr ctx.environment "OAUTH2_CLIENT_CREDENTIALS_CLIENT_ID").getD "" = "")
        || ((lookupStr ctx.secrets "OAUTH2_CLIENT_CREDENTIALS_CLIENT_SECRET").getD "" = "")) = false := by
      simp [hu, hi, hs]
    refine ⟨?_, ?_, ?_, ?_⟩
    · rw [hbranch]
      cases getClientCredentialsToken
          ((lookupStr ctx.environment "OAUTH2_CLIENT_CREDENTIALS_TOKEN_URL").getD "")
          ((lookupStr ctx.environment "OAUTH2_CLIENT_CREDENTIALS_CLIENT_ID").getD "")
          ((lookupStr ctx.secrets "OAUTH2_CLIENT_CREDENTIALS_CLIENT_SECRET").getD "")
          tokenResp <;> rfl
    · intro hok
      rw [hbranch]
      have hcc : ∃ e, getClientCredentialsToken
          ((lookupStr ctx.environment "OAUTH2_CLIENT_CREDENTIALS_TOKEN_URL").getD "")
          ((lookupStr ctx.environment "OAUTH2_CLIENT_CREDENTIALS_CLIENT_ID").getD "")
          ((lookupStr ctx.secrets "OAUTH2_CLIENT_CREDENTIALS_CLIENT_SECRET").getD "")
          tokenResp = .error e := by
        unfold getClientCredentialsToken
        rw [if_neg (by simp [hguard] : ¬ _), if_pos (by simp [hok])]
        exact ⟨_, rfl⟩
      obtain ⟨e, he⟩ := hcc
      rw [he]
      exact ⟨e, rfl⟩
    · intro b hok hjson hat
      rw [hbranch]
      have hcc : getClientCredentialsToken
          ((lookupStr ctx.environment "OAUTH2_CLIENT_CREDENTIALS_TOKEN_URL").getD "")
          ((lookupStr ctx.environment "OAUTH2_CLIENT_CREDENTIALS_CLIENT_ID").getD "")
          ((lookupStr ctx.secrets "OAUTH2_CLIENT_CREDENTIALS_CLIENT_SECRET").getD "")
          tokenResp = .error "No access_token in OAuth2 response" := by
        unfold getClientCredentialsToken
        rw [if_neg (by simp [hguard] : ¬ _), if_neg (by simp [hok]), hjson]
        simp [hat]
      rw [hcc]
    · intro b t hok hjson hat htr
      rw [hbranch]
      have hcc : getClientCredentialsToken
          ((lookupStr ctx.environment "OAUTH2_CLIENT_CREDENTIALS_TOKEN_URL").getD "")
          ((lookupStr ctx.environment "OAUTH2_CLIENT_CREDENTIALS_CLIENT_ID").getD "")
          ((lookupStr ctx.secrets "OAUTH2_CLIENT_CREDENTIALS_CLIENT_SECRET").getD "")
          tokenResp = .ok t := by
        unfold getClientCredentialsToken
        rw [if_neg (by simp [hguard] : ¬ _), if_neg (by simp [hok]), hjson]
        simp [hat, optTruthy, htr]
      rw [hcc]
  · intro h1 h2 h3 h4
    rcases h2 with h2 | h2 <;> simp [getAuthorizationHeader, h1, h2, h3, h4]

/-- Witness for C2: the bearer branch (no call) and the none-configured
error at concrete contexts. -/
theorem claim_C2_auth_priority_witness :
    getAuthorizationHeader ⟨[], [("BEARER_AUTH_TOKEN", "tok")], .null⟩ default =
      (.ok (if startsWithStr ((lookupStr [("BEARER_AUTH_TOKEN", "tok")] "BEARER_AUTH_TOKEN").getD "") "Bearer "
            then (lookupStr [("BEARER_AUTH_TOKEN", "tok")] "BEARER_AUTH_TOKEN").getD ""
            else "Bearer " ++ (lookupStr [("BEARER_AUTH_TOKEN", "tok")] "BEARER_AUTH_TOKEN").getD ""), 0)
    ∧ getAuthorizationHeader ⟨[], [], .null⟩ default =
      (.error ("No authentication configured. Provide one of: "
        ++ "BEARER_AUTH_TOKEN, BASIC_USERNAME/BASIC_PASSWORD, "
        ++ "OAUTH2_AUTHORIZATION_CODE_ACCESS_TOKEN, or OAUTH2_CLIENT_CREDENTIALS_*"), 0) :=
  ⟨(claim_C2_auth_priority ⟨[], [("BEARER_AUTH_TOKEN", "tok")], .null⟩ default).1 (by decide),
   (claim_C2_auth_priority ⟨[], [], .null⟩ default).2.2.2.2.2 rfl (Or.inl rfl) rfl rfl⟩


/-! ## Error-response mapping: C6 -/

theorem startsWithList_append (sub b : List Char) :
    startsWithList (sub ++ b) sub = true := by
  induction sub with
  | nil => cases b <;> rfl
  | cons c cs ih => simp [startsWithList, ih]

theorem containsSubList_of_tail (a l sub : List Char)
    (h : containsSubList l sub = true) :
    containsSubList (a ++ l) sub = true := by
  induction a with
  | nil => simpa using h
  | cons c cs ih => simp [containsSubList, ih]

theorem containsSub_of_data (s sub : String) (a b : List Char)
    (h : s.data = a ++ (sub.data ++ b)) : containsSub s sub = true := by
  unfold containsSub
  rw [h]
  apply containsSubList_of_tail
  cases hs : sub.data with
  | nil => cases b <;> simp [containsSubList, startsWithList]
  | cons c cs =>
      have h1 := startsWithList_append (c :: cs) b
      rw [List.cons_append] at h1
      simp [containsSubList, h1]

def exampleParams : JsValue :=
  .obj [("identityId", .str "id-1"), ("itemType", .str "ROLE"),
        ("itemId", .str "it-1"), ("itemComment", .str "c")]

def exampleCtx : ExecContext :=
  ⟨[("ADDRESS", "https://a")], [("BEARER_AUTH_TOKEN", "tok")], .null⟩

def exampleDate : JsDate := ⟨2025, 1, 1, 0, 0, 0, 0⟩

/-- C6: for every non-ok HTTP response to the revoke POST, `invoke`
throws an error carrying the numeric status code as its `statusCode`
attribute, whose message contains the JSON error body field `detailCode`
when present and non-empty, else the first entry of `messages[].text`,
else the `message` field, else the raw response text. -/
theorem claim_C6_error_mapping (resp : HttpResponse) (denv : DateStringEnv)
    (hok : resp.ok = false) :
    (invoke exampleParams exampleCtx exampleDate "u" default resp "RA" denv).result
      = .error ⟨buildErrorMessage resp, some resp.status⟩
    ∧ (∀ body dc, resp.jsonBody = some body →
        jsProp body "detailCode" = some (.str dc) → dc ≠ "" →
        containsSub (buildErrorMessage resp) dc = true)
    ∧ (∀ body m rest t, resp.jsonBody = some body → jsProp body "detailCode" = none →
        jsProp body "messages" = some (.arr (m :: rest)) → jsProp m "text" = some (.str t) →
        buildErrorMessage resp = "Failed to create revoke access request: " ++ t)
    ∧ (∀ body msg, resp.jsonBody = some body → jsProp body "detailCode" = none →
        jsProp body "messages" = none → jsProp body "message" = some (.str msg) → msg ≠ "" →
        buildErrorMessage resp = "Failed to create revoke access request: " ++ msg)
    ∧ (resp.jsonBody = none → resp.textBody ≠ "" →
        buildErrorMessage resp = "Failed to create revoke access request: " ++ resp.textBody) := by
  refine ⟨?_, ?_, ?_, ?_, ?_⟩
  · obtain ⟨ok, status, stext, jbody, tbody⟩ := resp
    simp only at hok
    subst hok
    rfl
  · intro body dc hjson hdc hne
    have hmsg : buildErrorMessage resp
        = "Failed to create revoke access request: " ++ dc ++ " - "
          ++ (if optTruthy (jsProp body "trackingId") then
                jsDisplayOpt (jsProp body "trackingId") else "") := by
      simp [buildErrorMessage, hjson, hdc, optTruthy, jsTruthy, hne, jsDisplayOpt, jsDisplay]
    exact containsSub_of_data _ _
      ("Failed to create revoke access request: ".data)
      ((" - " ++ (if optTruthy (jsProp body "trackingId") then
          jsDisplayOpt (jsProp body "trackingId") else "")).data)
      (by rw [hmsg]; simp [String.data_append])
  · intro body m rest t hjson hdc hmsgs htext
    simp [buildErrorMessage, hjson, hdc, hmsgs, htext, optTruthy, jsDisplayOpt, jsDisplay]
  · intro body msg hjson hdc hmsgs hmsg hne
    simp [buildErrorMessage, hjson, hdc, hmsgs, hmsg, optTruthy, jsTruthy, hne,
      jsDisplayOpt, jsDisplay]
  · intro hjson hne
    simp [buildErrorMessage, hjson, hne]

/-- Witness for C6: a 400 response with `detailCode` 400.1 yields an
error whose message contains 400.1 and whose statusCode is 400. -/
theorem claim_C6_error_mapping_witness :
    (invoke exampleParams exampleCtx exampleDate "u" default
        ⟨false, 400, "Bad", some (.obj [("detailCode", .str "400.1"),
          ("trackingId", .str "tr")]), ""⟩ "RA" utcDateEnv).result
      = .error ⟨buildErrorMessage ⟨false, 400, "Bad",
          some (.obj [("detailCode", .str "400.1"), ("trackingId", .str "tr")]), ""⟩,
          some 400⟩
    ∧ containsSub (buildErrorMessage ⟨false, 400, "Bad",
        some (.obj [("detailCode", .str "400.1"), ("trackingId", .str "tr")]), ""⟩)
        "400.1" = true :=
  ⟨(claim_C6_error_mapping ⟨false, 400, "Bad",
      some (.obj [("detailCode", .str "400.1"), ("trackingId", .str "tr")]), ""⟩
      utcDateEnv rfl).1,
   (claim_C6_error_mapping ⟨false, 400, "Bad",
      some (.obj [("detailCode", .str "400.1"), ("trackingId", .str "tr")]), ""⟩
      utcDateEnv rfl).2.1
     (.obj [("detailCode", .str "400.1"), ("trackingId", .str "tr")]) "400.1"
     rfl rfl (by decide)⟩


/-! ## Success-path result: C1 -/

def paramsOf (idv itt itid cmt : String) : JsValue :=
  .obj [("identityId", .str idv), ("itemType", .str itt),
        ("itemId", .str itid), ("itemComment", .str cmt)]

theorem resolve_paramsOf (idv itt itid cmt : String) (ctx : JsValue)
    (hidv : '\x7b' ∉ idv.data) (hitt : '\x7b' ∉ itt.data)
    (hitid : '\x7b' ∉ itid.data) (hcmt : '\x7b' ∉ cmt.data) :
    resolveValue ctx false (paramsOf idv itt itid cmt)
      = (paramsOf idv itt itid cmt, []) := by
  simp [paramsOf, resolveValue, resolveValueEntries,
    resolveTemplateString_no_brace _ ctx false hidv,
    resolveTemplateString_no_brace _ ctx false hitt,
    resolveTemplateString_no_brace _ ctx false hitid,
    resolveTemplateString_no_brace _ ctx false hcmt]

/-- C1: whenever the outbound POST receives an ok response with a JSON
body, `invoke` returns a result echoing the (template-free) input
`identityId`/`itemType`/`itemId` exactly as given, with `status` equal to
the response body status when present and non-empty, and `PENDING` when
the response omits it. -/
theorem claim_C1_success_result (idv itt itid cmt : String) (resp : HttpResponse)
    (data : JsValue) (denv : DateStringEnv)
    (htt : (itt = "ACCESS_PROFILE" || itt = "ROLE" || itt = "ENTITLEMENT") = true)
    (hidv : '\x7b' ∉ idv.data) (hitt : '\x7b' ∉ itt.data)
    (hitid : '\x7b' ∉ itid.data) (hcmt : '\x7b' ∉ cmt.data)
    (hcm : cmt ≠ "")
    (hok : resp.ok = true) (hjson : resp.jsonBody = some data) :
    ∃ r, (invoke (paramsOf idv itt itid cmt) exampleCtx exampleDate "u" default
        resp "RA" denv).result = .ok r
      ∧ r.identityId = some (.str idv)
      ∧ r.itemType = some (.str itt)
      ∧ r.itemId = some (.str itid)
      ∧ r.requestId = jsProp data "id"
      ∧ (∀ st, jsProp data "status" = some (.str st) → st ≠ "" → r.status = .str st)
      ∧ (jsProp data "status" = none → r.status = .str "PENDING") := by
  have hres : (resolveJSONPathTemplates (paramsOf idv itt itid cmt)
      (if jsTruthy exampleCtx.data then exampleCtx.data else .obj [])
      exampleDate "u" {}).1 = paramsOf idv itt itid cmt := by
    have hdef : resolveJSONPathTemplates (paramsOf idv itt itid cmt)
        (if jsTruthy exampleCtx.data then exampleCtx.data else .obj [])
        exampleDate "u" {}
        = resolveValue (injectSGNLNamespace (.obj []) exampleDate "u") false
            (paramsOf idv itt itid cmt) := rfl
    rw [hdef, resolve_paramsOf idv itt itid cmt _ hidv hitt hitid hcmt]
  obtain ⟨ok, status, stext, jbody, tbody⟩ := resp
  simp only at hok hjson
  subst hok
  subst hjson
  have h1 : jsProp (paramsOf idv itt itid cmt) "itemType" = some (.str itt) := by
    simp [paramsOf, jsProp, lookupEntry]
  have h2 : jsProp (paramsOf idv itt itid cmt) "identityId" = some (.str idv) := by
    simp [paramsOf, jsProp, lookupEntry]
  have h3 : jsProp (paramsOf idv itt itid cmt) "itemId" = some (.str itid) := by
    simp [paramsOf, jsProp, lookupEntry]
  have hb : getBaseURL (paramsOf idv itt itid cmt) exampleCtx = .ok "https://a" := rfl
  have hauth : (getAuthorizationHeader exampleCtx default).1 = .ok "Bearer tok" := rfl
  have hrevoke : revokeAccess (paramsOf idv itt itid cmt) "https://a" "Bearer tok" denv
      = .ok ⟨"https://a/v3/access-requests", "Bearer tok",
          .obj [("requestedFor", .arr [.str idv]),
                ("requestType", .str "REVOKE_ACCESS"),
                ("requestedItems", .arr [.obj [("type", .str itt), ("id", .str itid),
                  ("comment", .str cmt)]])]⟩ := by
    simp [revokeAccess, paramsOf, jsProp, lookupEntry, optTruthy, jsTruthy, hcm]
  simp only [invoke, hres, h1, h2, h3, hb, hauth, hrevoke, htt]
  simp only [Bool.not_true, Bool.false_eq_true, if_false, if_true]
  refine ⟨_, rfl, rfl, rfl, rfl, rfl, ?_, ?_⟩
  · intro st hst hne
    simp [hst, optTruthy, jsTruthy, hne]
  · intro hst
    simp [hst, optTruthy]

/-- Witness for C1: a mocked 202 response without a status field yields a
PENDING result echoing the inputs. -/
theorem claim_C1_success_result_witness :
    ∃ r, (invoke (paramsOf "id-1" "ROLE" "it-1" "c") exampleCtx exampleDate "u" default
        ⟨true, 202, "Accepted", some (.obj [("id", .str "req-9")]), ""⟩ "RA"
        utcDateEnv).result = .ok r
      ∧ r.identityId = some (.str "id-1")
      ∧ r.itemType = some (.str "ROLE")
      ∧ r.itemId = some (.str "it-1")
      ∧ r.requestId = jsProp (.obj [("id", .str "req-9")]) "id"
      ∧ (∀ st, jsProp (.obj [("id", .str "req-9")]) "status" = some (.str st) → st ≠ "" →
          r.status = .str st)
      ∧ (jsProp (.obj [("id", .str "req-9")]) "status" = none → r.status = .str "PENDING") :=
  claim_C1_success_result "id-1" "ROLE" "it-1" "c"
    ⟨true, 202, "Accepted", some (.obj [("id", .str "req-9")]), ""⟩
    (.obj [("id", .str "req-9")]) utcDateEnv
    (by decide) (by decide) (by decide) (by decide) (by decide) (by decide) rfl rfl


/-! ## Missing itemComment: C7 -/

/-- C7: whenever `itemComment` is missing (falsy) after template
resolution, `invoke` fails — whatever the other parameters, context and
responses — and no revoke POST is sent; when everything else is valid the
failure is the dedicated `itemComment is required for REVOKE_ACCESS
requests` error, which is distinct from the other validation messages. -/
theorem claim_C7_missing_comment (params : JsValue) (ctx : ExecContext) (d : JsDate)
    (u : String) (tokenResp revokeResp : HttpResponse) (ra : String)
    (denv : DateStringEnv)
    (hcm : optTruthy (jsProp
        (resolveJSONPathTemplates params
          (if jsTruthy ctx.data then ctx.data else .obj []) d u {}).1
        "itemComment") = false) :
    (∃ e, (invoke params ctx d u tokenResp revokeResp ra denv).result = .error e)
    ∧ (invoke params ctx d u tokenResp revokeResp ra denv).revokeRequests = []
    ∧ (∀ idv itt itid : String,
        (itt = "ACCESS_PROFILE" || itt = "ROLE" || itt = "ENTITLEMENT") = true →
        '\x7b' ∉ idv.data → '\x7b' ∉ itt.data → '\x7b' ∉ itid.data →
        (invoke (paramsOf idv itt itid "") exampleCtx exampleDate "u" default
            revokeResp ra denv).result
          = .error ⟨"itemComment is required for REVOKE_ACCESS requests", none⟩)
    ∧ ("itemComment is required for REVOKE_ACCESS requests"
        ≠ "itemType must be ACCESS_PROFILE, ROLE, or ENTITLEMENT"
      ∧ "itemComment is required for REVOKE_ACCESS requests"
        ≠ "No URL specified. Provide address parameter or ADDRESS environment variable") := by
  have hrev : ∀ b a, revokeAccess
      (resolveJSONPathTemplates params
        (if jsTruthy ctx.data then ctx.data else .obj []) d u {}).1 b a denv
      = .error "itemComment is required for REVOKE_ACCESS requests" := by
    intro b a
    simp [revokeAccess, hcm]
  have key : ∃ e, invoke params ctx d u tokenResp revokeResp ra denv
      = InvokeOutcome.mk (.error e) [] := by
    simp only [invoke, hrev]
    set RP := (resolveJSONPathTemplates params
      (if jsTruthy ctx.data then ctx.data else JsValue.obj []) d u {}).1 with hRP
    by_cases hty : (match jsProp RP "itemType" with
        | some (JsValue.str s) =>
            s = "ACCESS_PROFILE" || s = "ROLE" || s = "ENTITLEMENT"
        | _ => false) = true
    · rw [if_neg (by simp [hty])]
      cases hgb : getBaseURL RP ctx with
      | error m => exact ⟨_, rfl⟩
      | ok b =>
          cases hga : (getAuthorizationHeader ctx tokenResp).1 with
          | error m => exact ⟨_, rfl⟩
          | ok a => exact ⟨_, rfl⟩
    · rw [if_pos (by simp [hty])]
      exact ⟨_, rfl⟩
  obtain ⟨e, he⟩ := key
  refine ⟨⟨e, by rw [he]⟩, by rw [he], ?_, by decide, by decide⟩
  intro idv itt itid htt hidv hitt hitid
  have hres : (resolveJSONPathTemplates (paramsOf idv itt itid "")
      (if jsTruthy exampleCtx.data then exampleCtx.data else .obj [])
      exampleDate "u" {}).1 = paramsOf idv itt itid "" := by
    have hdef : resolveJSONPathTemplates (paramsOf idv itt itid "")
        (if jsTruthy exampleCtx.data then exampleCtx.data else .obj [])
        exampleDate "u" {}
        = resolveValue (injectSGNLNamespace (.obj []) exampleDate "u") false
            (paramsOf idv itt itid "") := rfl
    rw [hdef, resolve_paramsOf idv itt itid "" _ hidv hitt hitid (by decide)]
  have h1 : jsProp (paramsOf idv itt itid "") "itemType" = some (.str itt) := by
    simp [paramsOf, jsProp, lookupEntry]
  have hb : getBaseURL (paramsOf idv itt itid "") exampleCtx = .ok "https://a" := rfl
  have hauth : (getAuthorizationHeader exampleCtx default).1 = .ok "Bearer tok" := rfl
  have hrev2 : revokeAccess (paramsOf idv itt itid "") "https://a" "Bearer tok" denv
      = .error "itemComment is required for REVOKE_ACCESS requests" := by
    simp [revokeAccess, paramsOf, jsProp, lookupEntry, optTruthy, jsTruthy]
  simp only [invoke, hres, h1, hb, hauth, hrev2, htt]
  simp only [Bool.not_true, Bool.false_eq_true, if_false]

/-- Witness for C7: params without `itemComment` produce an error and an
empty request list. -/
theorem claim_C7_missing_comment_witness :
    (∃ e, (invoke (.obj [("identityId", .str "i"), ("itemType", .str "ROLE"),
        ("itemId", .str "t")]) exampleCtx exampleDate "u" default default "RA"
        utcDateEnv).result
      = .error e)
    ∧ (invoke (.obj [("identityId", .str "i"), ("itemType", .str "ROLE"),
        ("itemId", .str "t")]) exampleCtx exampleDate "u" default default
        "RA" utcDateEnv).revokeRequests = [] :=
  ⟨(claim_C7_missing_comment (.obj [("identityId", .str "i"), ("itemType", .str "ROLE"),
      ("itemId", .str "t")]) exampleCtx exampleDate "u" default default "RA"
      utcDateEnv rfl).1,
   (claim_C7_missing_comment (.obj [("identityId", .str "i"), ("itemType", .str "ROLE"),
      ("itemId", .str "t")]) exampleCtx exampleDate "u" default default "RA"
      utcDateEnv rfl).2.1⟩


/-! ## Optional removeDate handling: C10 -/

/-- C10: for every date environment (host-zone offset and engine
fallback oracle), whenever `itemRemoveDate` is present (truthy) but
`new Date` yields an invalid date, the request body built by
`revokeAccess` carries no `removeDate` field and no error is raised (the
value is silently dropped); whenever it parses to a time value `t`, the
body `removeDate` is the ISO-8601 re-rendering `isoFromMillis t` rather
than the raw input string. -/
theorem claim_C10_remove_date (denv : DateStringEnv) (params : JsValue)
    (baseUrl auth s : String)
    (hrd : jsProp params "itemRemoveDate" = some (.str s))
    (hpres : optTruthy (jsProp params "itemRemoveDate") = true)
    (hcm : optTruthy (jsProp params "itemComment") = true) :
    (jsDateParse denv s = none →
      revokeAccess params baseUrl auth denv = .ok
        ⟨baseUrl ++ "/v3/access-requests", auth,
         .obj [("requestedFor", .arr [(jsProp params "identityId").getD .null]),
               ("requestType", .str "REVOKE_ACCESS"),
               ("requestedItems", .arr [.obj
                 [("type", (jsProp params "itemType").getD .null),
                  ("id", (jsProp params "itemId").getD .null),
                  ("comment", (jsProp params "itemComment").getD .null)]])]⟩
      ∧ lookupEntry
          [("type", (jsProp params "itemType").getD .null),
           ("id", (jsProp params "itemId").getD .null),
           ("comment", (jsProp params "itemComment").getD .null)] "removeDate" = none)
    ∧ (∀ t, jsDateParse denv s = some t →
      revokeAccess params baseUrl auth denv = .ok
        ⟨baseUrl ++ "/v3/access-requests", auth,
         .obj [("requestedFor", .arr [(jsProp params "identityId").getD .null]),
               ("requestType", .str "REVOKE_ACCESS"),
               ("requestedItems", .arr [.obj
                 [("type", (jsProp params "itemType").getD .null),
                  ("id", (jsProp params "itemId").getD .null),
                  ("comment", (jsProp params "itemComment").getD .null),
                  ("removeDate", .str (isoFromMillis t))]])]⟩) := by
  simp only [optTruthy, jsTruthy, ne_eq, decide_not] at hcm
  have hs : s ≠ "" := by
    intro h
    subst h
    rw [hrd] at hpres
    simp [optTruthy, jsTruthy] at hpres
  constructor
  · intro hparse
    refine ⟨?_, by simp [lookupEntry]⟩
    simp [revokeAccess, hrd, hcm, optTruthy, jsTruthy, hs, hparse]
  · intro t hparse
    simp [revokeAccess, hrd, hcm, optTruthy, jsTruthy, hs, hparse]

/-- Witness for C10, on hosts with no engine fallback: `garbage` is
silently dropped; the date-only `2025-01-02`, the offset-less local
date-time `2025-01-02T00:00:00` (on a UTC host and on a UTC+5 host), and
the offset form `2025-01-02T10:00:00+05:00` all parse, and the body
carries their ISO re-renderings — never the raw input. -/
theorem claim_C10_remove_date_witness :
    (revokeAccess (.obj [("identityId", .str "i"), ("itemComment", .str "c"),
        ("itemRemoveDate", .str "garbage")]) "https://b" "Bearer t" utcDateEnv = .ok
      ⟨"https://b" ++ "/v3/access-requests", "Bearer t",
       .obj [("requestedFor", .arr [.str "i"]),
             ("requestType", .str "REVOKE_ACCESS"),
             ("requestedItems", .arr [.obj
               [("type", .null), ("id", .null), ("comment", .str "c")]])]⟩)
    ∧ (revokeAccess (.obj [("identityId", .str "i"), ("itemComment", .str "c"),
        ("itemRemoveDate", .str "2025-01-02")]) "https://b" "Bearer t" utcDateEnv = .ok
      ⟨"https://b" ++ "/v3/access-requests", "Bearer t",
       .obj [("requestedFor", .arr [.str "i"]),
             ("requestType", .str "REVOKE_ACCESS"),
             ("requestedItems", .arr [.obj
               [("type", .null), ("id", .null), ("comment", .str "c"),
                ("removeDate", .str (isoFromMillis 1735776000000))]])]⟩)
    ∧ isoFromMillis 1735776000000 = "2025-01-02T00:00:00.000Z"
    ∧ (revokeAccess (.obj [("identityId", .str "i"), ("itemComment", .str "c"),
        ("itemRemoveDate", .str "2025-01-02T00:00:00")]) "https://b" "Bearer t"
        utcDateEnv = .ok
      ⟨"https://b" ++ "/v3/access-requests", "Bearer t",
       .obj [("requestedFor", .arr [.str "i"]),
             ("requestType", .str "REVOKE_ACCESS"),
             ("requestedItems", .arr [.obj
               [("type", .null), ("id", .null), ("comment", .str "c"),
                ("removeDate", .str (isoFromMillis 1735776000000))]])]⟩)
    ∧ (revokeAccess (.obj [("identityId", .str "i"), ("itemComment", .str "c"),
        ("itemRemoveDate", .str "2025-01-02T00:00:00")]) "https://b" "Bearer t"
        ⟨300, fun _ => none⟩ = .ok
      ⟨"https://b" ++ "/v3/access-requests", "Bearer t",
       .obj [("requestedFor", .arr [.str "i"]),
             ("requestType", .str "REVOKE_ACCESS"),
             ("requestedItems", .arr [.obj
               [("type", .null), ("id", .null), ("comment", .str "c"),
                ("removeDate", .str (isoFromMillis 1735758000000))]])]⟩)
    ∧ isoFromMillis 1735758000000 = "2025-01-01T19:00:00.000Z"
    ∧ (revokeAccess (.obj [("identityId", .str "i"), ("itemComment", .str "c"),
        ("itemRemoveDate", .str "2025-01-02T10:00:00+05:00")]) "https://b" "Bearer t"
        utcDateEnv = .ok
      ⟨"https://b" ++ "/v3/access-requests", "Bearer t",
       .obj [("requestedFor", .arr [.str "i"]),
             ("requestType", .str "REVOKE_ACCESS"),
             ("requestedItems", .arr [.obj
               [("type", .null), ("id", .null), ("comment", .str "c"),
                ("removeDate", .str (isoFromMillis 1735794000000))]])]⟩)
    ∧ isoFromMillis 1735794000000 = "2025-01-02T05:00:00.000Z"
    ∧ isoFromMillis 1735776000000 ≠ "2025-01-02" := by
  refine ⟨?_, ?_, by decide, ?_, ?_, by decide, ?_, by decide, by decide⟩
  · exact ((claim_C10_remove_date utcDateEnv (.obj [("identityId", .str "i"),
      ("itemComment", .str "c"), ("itemRemoveDate", .str "garbage")])
      "https://b" "Bearer t" "garbage" rfl rfl rfl).1 rfl).1
  · exact (claim_C10_remove_date utcDateEnv (.obj [("identityId", .str "i"),
      ("itemComment", .str "c"), ("itemRemoveDate", .str "2025-01-02")])
      "https://b" "Bearer t" "2025-01-02" rfl rfl rfl).2
      1735776000000 (by decide)
  · exact (claim_C10_remove_date utcDateEnv (.obj [("identityId", .str "i"),
      ("itemComment", .str "c"), ("itemRemoveDate", .str "2025-01-02T00:00:00")])
      "https://b" "Bearer t" "2025-01-02T00:00:00" rfl rfl rfl).2
      1735776000000 (by decide)
  · exact (claim_C10_remove_date ⟨300, fun _ => none⟩ (.obj [("identityId", .str "i"),
      ("itemComment", .str "c"), ("itemRemoveDate", .str "2025-01-02T00:00:00")])
      "https://b" "Bearer t" "2025-01-02T00:00:00" rfl rfl rfl).2
      1735758000000 (by decide)
  · exact (claim_C10_remove_date utcDateEnv (.obj [("identityId", .str "i"),
      ("itemComment", .str "c"), ("itemRemoveDate", .str "2025-01-02T10:00:00+05:00")])
      "https://b" "Bearer t" "2025-01-02T10:00:00+05:00" rfl rfl rfl).2
      1735794000000 (by decide)


/-! ## Retrying error handler (older variant): C8 -/

/-- C8: a 429 revoke response makes `invoke` fail with `statusCode` 429
(last conjunct, via the older `invoke`); the retrying error handler then
sleeps the rate-limit backoff (default 30000 ms when unconfigured),
retries once, and a successful retry returns a result with
`recoveryMethod` rate_limit_retry; statuses 502/503/504 are retried once
after the separate service backoff (default 10000 ms) with
`recoveryMethod` service_retry; any other error is re-thrown as
unrecoverable naming the identity, with no sleeps and no retries; and on
every input at most one retry attempt is made per error category. -/
theorem claim_C8_bounded_retry (params : JsValue) (err : JsError) (ctx : ExecContext)
    (resps : List HttpResponse) (ra : String) (tok : String) (d0 : JsValue)
    (denv : DateStringEnv)
    (htok : lookupStr ctx.secrets "SAILPOINT_API_TOKEN" = some tok)
    (hcm : optTruthy (jsProp params "itemComment") = true) :
    (err.statusCode = some 429 →
      lookupStr ctx.environment "RATE_LIMIT_BACKOFF_MS" = none →
      (resps.getD 0 default).ok = true →
      (resps.getD 0 default).jsonBody = some d0 →
      errorHandler params err ctx resps ra denv =
        ⟨.ok (mkRecoveryResult params d0 ra "rate_limit_retry"),
         [some 30000], [.rateLimit]⟩
        ∧ (mkRecoveryResult params d0 ra "rate_limit_retry").recoveryMethod
            = "rate_limit_retry")
    ∧ ((err.statusCode == some 502 || err.statusCode == some 503
          || err.statusCode == some 504) = true →
       (err.statusCode == some 429) = false →
       containsSub err.message "429" = false →
       containsSub err.message "rate limit" = false →
       lookupStr ctx.environment "SERVICE_ERROR_BACKOFF_MS" = none →
       (resps.getD 0 default).ok = true →
       (resps.getD 0 default).jsonBody = some d0 →
      errorHandler params err ctx resps ra denv =
        ⟨.ok (mkRecoveryResult params d0 ra "service_retry"),
         [some 10000], [.service]⟩)
    ∧ ((err.statusCode == some 429) = false →
       (err.statusCode == some 502) = false →
       (err.statusCode == some 503) = false →
       (err.statusCode == some 504) = false →
       containsSub err.message "429" = false →
       containsSub err.message "rate limit" = false →
      errorHandler params err ctx resps ra denv =
        ⟨.error ("Unrecoverable error creating revoke access request for identity "
           ++ jsDisplayOpt (jsProp params "identityId") ++ ": " ++ err.message),
         [], []⟩)
    ∧ (∀ (params2 : JsValue) (err2 : JsError) (ctx2 : ExecContext)
          (resps2 : List HttpResponse) (ra2 : String) (denv2 : DateStringEnv),
        (errorHandler params2 err2 ctx2 resps2 ra2 denv2).retries.count .rateLimit ≤ 1
        ∧ (errorHandler params2 err2 ctx2 resps2 ra2 denv2).retries.count .service ≤ 1)
    ∧ (∀ resp : HttpResponse, resp.ok = false → resp.status = 429 →
        (invoke0 (.obj [("identityId", .str "id-1"), ("itemType", .str "ROLE"),
            ("itemId", .str "it-1"), ("sailpointDomain", .str "d.example.com"),
            ("itemComment", .str "c")])
          ⟨[], [("SAILPOINT_API_TOKEN", "tk")], .null⟩ resp ra denv).result
        = .error ⟨buildErrorMessage0 resp, some 429⟩) := by
  have hrev : ∃ call, revokeAccess0 params (jsDisplayOpt (jsProp params "sailpointDomain")) tok denv
      = .ok call := by
    unfold revokeAccess0
    rw [if_neg (by simp [hcm])]
    exact ⟨_, rfl⟩
  obtain ⟨call, hcall⟩ := hrev
  have hattempt : retryAttempt params (jsDisplayOpt (jsProp params "sailpointDomain"))
      (lookupStr ctx.secrets "SAILPOINT_API_TOKEN") (resps.getD 0 default) denv =
      (if (resps.getD 0 default).ok then
        match (resps.getD 0 default).jsonBody with
        | none => .thrown jsonParseThrowMessage
        | some dd => .succeeded dd
       else .notOk) := by
    rw [htok]
    simp [retryAttempt, hcall]
  refine ⟨?_, ?_, ?_, ?_, ?_⟩
  · intro hsc henv hok0 hjson0
    refine ⟨?_, rfl⟩
    simp only [errorHandler, hsc, henv]
    rw [if_pos (by simp)]
    rw [hattempt, if_pos hok0, hjson0]
    rfl
  · intro hsvc h429 hm1 hm2 henv hok0 hjson0
    simp only [errorHandler, henv]
    rw [if_neg (by simp [h429, hm1, hm2])]
    rw [if_pos (by simp only [hsvc])]
    rw [hattempt, if_pos hok0, hjson0]
    rfl
  · intro h429 h502 h503 h504 hm1 hm2
    simp only [errorHandler]
    rw [if_neg (by simp [h429, hm1, hm2])]
    rw [if_neg (by simp [h502, h503, h504])]
  · intro p2 e2 c2 r2 ra2 dv2
    simp only [errorHandler]
    constructor <;>
    · repeat' split
      all_goals simp [List.count]
  · intro resp hok hst
    obtain ⟨ok, status, stext, jbody, tbody⟩ := resp
    simp only at hok hst
    subst hok
    subst hst
    rfl

/-- Witness for C8: a 429 error with an ok mocked retry yields the
rate-limit recovery with the default 30000 ms backoff. -/
theorem claim_C8_bounded_retry_witness :
    errorHandler
      (.obj [("identityId", .str "id-1"), ("itemType", .str "ROLE"),
             ("itemId", .str "it-1"), ("sailpointDomain", .str "d.example.com"),
             ("itemComment", .str "c")])
      ⟨"Failed to create revoke access request: HTTP 429", some 429⟩
      ⟨[], [("SAILPOINT_API_TOKEN", "tk")], .null⟩
      [⟨true, 202, "Accepted", some (.obj [("id", .str "req-9")]), ""⟩] "RA"
      utcDateEnv =
    ⟨.ok (mkRecoveryResult
        (.obj [("identityId", .str "id-1"), ("itemType", .str "ROLE"),
               ("itemId", .str "it-1"), ("sailpointDomain", .str "d.example.com"),
               ("itemComment", .str "c")])
        (.obj [("id", .str "req-9")]) "RA" "rate_limit_retry"),
      [some 30000], [.rateLimit]⟩ :=
  ((claim_C8_bounded_retry
      (.obj [("identityId", .str "id-1"), ("itemType", .str "ROLE"),
             ("itemId", .str "it-1"), ("sailpointDomain", .str "d.example.com"),
             ("itemComment", .str "c")])
      ⟨"Failed to create revoke access request: HTTP 429", some 429⟩
      ⟨[], [("SAILPOINT_API_TOKEN", "tk")], .null⟩
      [⟨true, 202, "Accepted", some (.obj [("id", .str "req-9")]), ""⟩] "RA"
      "tk" (.obj [("id", .str "req-9")]) utcDateEnv rfl rfl).1 rfl rfl rfl rfl).1

end SailPointRevoke
